import Mathlib

/-!
# Verification of the beboa_bot memory / personality core

Shallow embedding of the repository's core subsystems, translated from the
JavaScript sources:

* `src/unnamed/part_003` — embedding service (`cosineSimilarity`, `findSimilar`)
* `src/src/services/messageIngestion.js` — importance scoring and ingestion
* `src/src/services/serverMemory.js` — embedding queue processor
* `src/unnamed/part_005` — personality / mood / relationship engine
* `src/src/services/llmEvaluator.js` — evaluator result clamping

JavaScript numbers are modelled as exact rationals (`ℚ`) where the code only
performs field arithmetic and comparisons, and as real numbers (`ℝ`) where the
code takes square roots (cosine similarity).  Timestamps (`Date.now()`,
ISO strings) are modelled as integer milliseconds.  Database rows are modelled
as explicit state records passed in and out of each operation.
-/

namespace Beboa

open scoped Classical

/-! ## Vector math (src/unnamed/part_003)

`cosineSimilarity(a, b)` guards against null vectors (`!a || !b`), length
mismatch, and zero magnitude.  A possibly-null vector is modelled as
`Option (List ℝ)`. -/

/-- One summand pass of the `for` loop of `cosineSimilarity`:
dot product, `normA` (sum of squares of `a`) and `normB`. -/
def dotProduct (a b : List ℝ) : ℝ := (List.zipWith (· * ·) a b).sum

def sumSquares (v : List ℝ) : ℝ := (v.map (fun x => x * x)).sum

/-- `cosineSimilarity(a, b)` from src/unnamed/part_003 lines 72–87:
returns 0 if either vector is null or lengths differ; otherwise computes
`dot / (sqrt normA * sqrt normB)`, returning 0 when that magnitude is 0. -/
noncomputable def cosineSimilarity (a b : Option (List ℝ)) : ℝ :=
  match a, b with
  | some a, some b =>
      if a.length ≠ b.length then 0
      else
        let magnitude := Real.sqrt (sumSquares a) * Real.sqrt (sumSquares b)
        if magnitude = 0 then 0 else dotProduct a b / magnitude
  | _, _ => 0

/-! ### Stable sort

The source sorts with JavaScript `Array.prototype.sort((a, b) => b.key - a.key)`,
which ECMAScript specifies to be a *stable* sort: strictly descending key,
ties kept in insertion order.  We embed it as a stable insertion sort by a
descending key; any stable sorting algorithm realises the same function. -/

def insertKeyDesc {α : Type*} {K : Type*} [LinearOrder K] (key : α → K) (x : α) :
    List α → List α
  | [] => [x]
  | y :: ys => if key y ≤ key x then x :: y :: ys else y :: insertKeyDesc key x ys

def sortKeyDesc {α : Type*} {K : Type*} [LinearOrder K] (key : α → K) :
    List α → List α
  | [] => []
  | x :: xs => insertKeyDesc key x (sortKeyDesc key xs)

/-! ### findSimilar (src/unnamed/part_003 lines 97–108) -/

/-- An item handed to `findSimilar`: `{id, embedding}`. -/
structure EmbItem where
  id : ℕ
  embedding : Option (List ℝ)

/-- A `findSimilar` result entry: `{id, similarity}`. -/
structure SimResult where
  id : ℕ
  similarity : ℝ

/-- The `.map` stage of `findSimilar`: score every item against the query. -/
noncomputable def scoredResults (queryEmbedding : Option (List ℝ))
    (items : List EmbItem) : List SimResult :=
  items.map (fun item => ⟨item.id, cosineSimilarity queryEmbedding item.embedding⟩)

/-- `findSimilar(queryEmbedding, items, topK, threshold)`: map to similarities,
filter by `similarity >= threshold`, stable-sort by descending similarity
(`(a, b) => b.similarity - a.similarity`), then `.slice(0, topK)`. -/
noncomputable def findSimilar (queryEmbedding : Option (List ℝ))
    (items : List EmbItem) (topK : ℕ) (threshold : ℝ) : List SimResult :=
  (sortKeyDesc (fun r => r.similarity)
      ((scoredResults queryEmbedding items).filter
        (fun r => decide (threshold ≤ r.similarity)))).take topK

/-! ### searchServerMemories (src/src/services/serverMemory.js lines 239–287)

The in-process embedding cache is modelled as a list in insertion order
(a JavaScript `Map` iterates in insertion order). -/

/-- A cached server message with its embedding vector. -/
structure CachedMsg where
  id : ℕ
  channel_id : String
  embedding : Option (List ℝ)

/-- A `searchServerMemories` match: the cached message spread together with
its `similarity`. -/
structure MatchRow where
  msg : CachedMsg
  similarity : ℝ

/-- The match-collection loop of `searchServerMemories`: skip other channels
when `channelId` is set, compute the similarity, keep it when
`similarity >= threshold`. -/
noncomputable def serverMatches (queryEmbedding : Option (List ℝ))
    (cache : List CachedMsg) (channelId : Option String) (threshold : ℝ) :
    List MatchRow :=
  ((cache.filter (fun m =>
      match channelId with
      | some c => decide (m.channel_id = c)
      | none => true)).map
    (fun m => MatchRow.mk m (cosineSimilarity queryEmbedding m.embedding))).filter
      (fun r => decide (threshold ≤ r.similarity))

/-- `searchServerMemories` after the query embedding succeeded: collect the
matches, `sort((a, b) => b.similarity - a.similarity)`, `slice(0, limit)`. -/
noncomputable def searchServerMemories (queryEmbedding : Option (List ℝ))
    (cache : List CachedMsg) (channelId : Option String) (limit : ℕ)
    (threshold : ℝ) : List MatchRow :=
  (sortKeyDesc (fun r => r.similarity)
    (serverMatches queryEmbedding cache channelId threshold)).take limit

/-! ## Personality engine (src/unnamed/part_005)

JavaScript numbers become exact rationals; `Date.now()` and ISO timestamps
become integer milliseconds.  The singleton `personality_state` database row
and the in-process cache are passed explicitly. -/

/-- `Math.max` on rationals, in kernel-reducible `if` form. -/
def jsMax (a b : ℚ) : ℚ := if a ≤ b then b else a

/-- `Math.min` on rationals, in kernel-reducible `if` form. -/
def jsMin (a b : ℚ) : ℚ := if a ≤ b then a else b

/-- `clamp(value, min, max)` from src/unnamed/part_005 lines 525–527. -/
def clamp (value mn mx : ℚ) : ℚ := jsMax mn (jsMin mx value)

/-- The fourteen trait names of `PersonalityDimensions`. -/
inductive TraitName where
  | openness | conscientiousness | extraversion | agreeableness | neuroticism
  | tsundereLevel | snarkiness | protectiveness | chaosEnergy | wisdom
  | playfulness | patience | competitiveness | vulnerability
deriving DecidableEq, Fintype

/-- Base value and valid range of one trait. -/
structure TraitConfig where
  base : ℚ
  min : ℚ
  max : ℚ

/-- `PersonalityDimensions` from src/unnamed/part_005 lines 25–43
(descriptions dropped). -/
def PersonalityDimensions : TraitName → TraitConfig
  | .openness => ⟨0.7, 0.3, 0.95⟩
  | .conscientiousness => ⟨0.4, 0.2, 0.8⟩
  | .extraversion => ⟨0.65, 0.3, 0.9⟩
  | .agreeableness => ⟨0.45, 0.2, 0.8⟩
  | .neuroticism => ⟨0.35, 0.1, 0.7⟩
  | .tsundereLevel => ⟨0.75, 0.4, 0.95⟩
  | .snarkiness => ⟨0.8, 0.5, 0.95⟩
  | .protectiveness => ⟨0.6, 0.3, 0.95⟩
  | .chaosEnergy => ⟨0.55, 0.2, 0.85⟩
  | .wisdom => ⟨0.5, 0.3, 0.9⟩
  | .playfulness => ⟨0.7, 0.4, 0.9⟩
  | .patience => ⟨0.5, 0.2, 0.8⟩
  | .competitiveness => ⟨0.65, 0.3, 0.9⟩
  | .vulnerability => ⟨0.25, 0.1, 0.6⟩

/-- The mood catalog keys of `Moods`. -/
inductive MoodName where
  | neutral | happy | annoyed | mischievous | protective | flustered
  | bored | energetic | melancholic | competitive | smug | soft
deriving DecidableEq, Fintype

/-- Duration (minutes) and trait-delta effects of one mood. -/
structure MoodData where
  duration : ℕ
  effects : TraitName → Option ℚ

/-- `Moods` from src/unnamed/part_005 lines 52–137 (emoji and descriptions
dropped; `effects` maps become partial functions). -/
def Moods : MoodName → MoodData
  | .neutral => ⟨60, fun _ => none⟩
  | .happy => ⟨45, fun t => match t with
      | .playfulness => some 0.15 | .snarkiness => some (-0.1)
      | .agreeableness => some 0.1 | _ => none⟩
  | .annoyed => ⟨30, fun t => match t with
      | .snarkiness => some 0.2 | .patience => some (-0.2)
      | .tsundereLevel => some 0.1 | _ => none⟩
  | .mischievous => ⟨40, fun t => match t with
      | .chaosEnergy => some 0.2 | .playfulness => some 0.15
      | .snarkiness => some 0.1 | _ => none⟩
  | .protective => ⟨60, fun t => match t with
      | .protectiveness => some 0.25 | .vulnerability => some 0.1
      | .tsundereLevel => some (-0.1) | _ => none⟩
  | .flustered => ⟨20, fun t => match t with
      | .tsundereLevel => some 0.2 | .vulnerability => some 0.15
      | .snarkiness => some (-0.1) | _ => none⟩
  | .bored => ⟨30, fun t => match t with
      | .chaosEnergy => some 0.15 | .patience => some (-0.15)
      | .playfulness => some (-0.1) | _ => none⟩
  | .energetic => ⟨35, fun t => match t with
      | .extraversion => some 0.2 | .chaosEnergy => some 0.1
      | .playfulness => some 0.1 | _ => none⟩
  | .melancholic => ⟨45, fun t => match t with
      | .wisdom => some 0.15 | .vulnerability => some 0.2
      | .playfulness => some (-0.2) | _ => none⟩
  | .competitive => ⟨30, fun t => match t with
      | .competitiveness => some 0.25 | .snarkiness => some 0.1
      | .patience => some (-0.1) | _ => none⟩
  | .smug => ⟨25, fun t => match t with
      | .snarkiness => some 0.15 | .tsundereLevel => some 0.1
      | .wisdom => some 0.05 | _ => none⟩
  | .soft => ⟨20, fun t => match t with
      | .vulnerability => some 0.3 | .tsundereLevel => some (-0.2)
      | .agreeableness => some 0.2 | _ => none⟩

/-- The trait map written by `initializePersonality`: every trait at its
base value. -/
def initialTraits : TraitName → ℚ := fun t => (PersonalityDimensions t).base

/-- `evolveTrait(traitName, delta, triggerEvent, clamp = true)` acting on the
stored trait map (lines 340–386; returns the new map and whether a write
happened — `false` when the change is below the 0.001 negligible-delta
floor).  The trigger-event string only feeds the append-only history log,
which is not modelled. -/
def evolveTrait (traits : TraitName → ℚ) (traitName : TraitName) (delta : ℚ)
    (useClamp : Bool := true) : (TraitName → ℚ) × Bool :=
  let previousValue := traits traitName
  let newValue0 := previousValue + delta
  let newValue :=
    if useClamp then
      jsMax (PersonalityDimensions traitName).min
        (jsMin (PersonalityDimensions traitName).max newValue0)
    else newValue0
  if |newValue - previousValue| < 0.001 then (traits, false)
  else (fun t => if t = traitName then newValue else traits t, true)

/-- The effective-trait computation of `getPersonalityState` (lines 261–267):
base traits plus the active mood's deltas, each clamped to `[0, 1]`
(`Math.max(0, Math.min(1, …))`). -/
def effectiveTraits (traits : TraitName → ℚ) (mood : MoodName) :
    TraitName → ℚ :=
  fun t =>
    match (Moods mood).effects t with
    | some modifier => jsMax 0 (jsMin 1 (traits t + modifier))
    | none => traits t

/-- One entry of the bounded `mood_triggers` history. -/
structure MoodTrigger where
  mood : MoodName
  reason : String
  time : ℤ

/-- The singleton `personality_state` row. -/
structure PersonalityRow where
  traits : TraitName → ℚ
  current_mood : MoodName
  mood_started_at : ℤ
  mood_triggers : List MoodTrigger

/-- `setMood(moodName, triggerReason)` on the state row (lines 300–335),
for a mood name that exists in the catalog: push the trigger (keep the last
10), set the mood and its start time. -/
def setMood (row : PersonalityRow) (moodName : MoodName) (reason : String)
    (now : ℤ) : PersonalityRow :=
  let triggers := row.mood_triggers ++ [⟨moodName, reason, now⟩]
  let triggers := if 10 < triggers.length then triggers.tail else triggers
  { traits := row.traits, current_mood := moodName,
    mood_started_at := now, mood_triggers := triggers }

/-- The value returned by `getPersonalityState` (and cached in
`personalityCache`). -/
structure PersonalityView where
  baseTraits : TraitName → ℚ
  effectiveTraits : TraitName → ℚ
  currentMood : MoodName
  moodStarted : ℤ
  moodTriggers : List MoodTrigger

/-- `CACHE_TTL = 30000` ms (line 201). -/
def CACHE_TTL : ℤ := 30000

/-- The cache-miss path of `getPersonalityState` (lines 238–279): check
whether the active mood's duration has elapsed; if so decay to `neutral`
(writing through `setMood`), then apply the active mood's effects.  Returns
the view, the possibly-updated row, and the refreshed cache. -/
def getPersonalityStateFresh (row : PersonalityRow) (now : ℤ) :
    PersonalityView × PersonalityRow × Option (ℤ × PersonalityView) :=
  let moodData := Moods row.current_mood
  let moodExpired := (moodData.duration : ℤ) * 60 * 1000 < now - row.mood_started_at
  if moodExpired ∧ row.current_mood ≠ .neutral then
    let view : PersonalityView :=
      { baseTraits := row.traits,
        effectiveTraits := effectiveTraits row.traits .neutral,
        currentMood := .neutral,
        moodStarted := row.mood_started_at,
        moodTriggers := row.mood_triggers }
    (view, setMood row .neutral "mood_decay" now, some (now, view))
  else
    let view : PersonalityView :=
      { baseTraits := row.traits,
        effectiveTraits := effectiveTraits row.traits row.current_mood,
        currentMood := row.current_mood,
        moodStarted := row.mood_started_at,
        moodTriggers := row.mood_triggers }
    (view, row, some (now, view))

/-- `getPersonalityState()` (lines 232–295): serve the in-process cache when
it is younger than `CACHE_TTL`, otherwise recompute (with lazy mood decay).
The stored row is assumed to exist (`initializePersonality` has run). -/
def getPersonalityState (row : PersonalityRow)
    (cache : Option (ℤ × PersonalityView)) (now : ℤ) :
    PersonalityView × PersonalityRow × Option (ℤ × PersonalityView) :=
  match cache with
  | some (tUpd, view) =>
      if now - tUpd < CACHE_TTL then (view, row, some (tUpd, view))
      else getPersonalityStateFresh row now
  | none => getPersonalityStateFresh row now

/-! ## Relationship system (src/unnamed/part_005 lines 392–527) -/

/-- One `user_relationships` row (JSON fields parsed). -/
structure Relationship where
  affection : ℚ
  trust : ℚ
  familiarity : ℚ
  rivalry : ℚ
  insideJokes : List String
  nickname : Option String
  interaction_count : ℕ
  notes : List (String × ℤ)

/-- The default relationship created lazily by `getRelationship` for an
unseen user (lines 419–433). -/
def defaultRelationship : Relationship :=
  { affection := 0.3, trust := 0.3, familiarity := 0.1, rivalry := 0,
    insideJokes := [], nickname := none, interaction_count := 0, notes := [] }

/-- The `updates` argument of `updateRelationship`; absent JavaScript fields
are `none` (`updates.affection || 0` etc. treat them as 0). -/
structure RelUpdates where
  affection : Option ℚ := none
  trust : Option ℚ := none
  familiarity : Option ℚ := none
  rivalry : Option ℚ := none
  addJoke : Option String := none
  nickname : Option String := none
  addNote : Option String := none

/-- `.slice(-n)` — the last `n` elements. -/
def lastN {α : Type*} (n : ℕ) (l : List α) : List α := l.drop (l.length - n)

/-- The relationship-stage keys of `RelationshipStages`. -/
inductive StageKey where
  | stranger | acquaintance | regular | friend | closeFriend | family
deriving DecidableEq

/-- `RelationshipStages` (lines 395–402): stage key and `minFamiliarity`,
listed in ascending threshold order as in the source object. -/
def RelationshipStages : List (StageKey × ℚ) :=
  [(.stranger, 0), (.acquaintance, 0.2), (.regular, 0.4),
   (.friend, 0.6), (.closeFriend, 0.8), (.family, 0.95)]

/-- `determineRelationshipStage(familiarity)` (lines 513–523): walk the
stages in descending `minFamiliarity` order and return the first whose
threshold is reached, defaulting to `stranger`. -/
def determineRelationshipStage (familiarity : ℚ) : StageKey :=
  match RelationshipStages.reverse.find? (fun s => decide (s.2 ≤ familiarity)) with
  | some s => s.1
  | none => .stranger

/-- `updateRelationship(userId, updates)` acting on the current row
(lines 466–511): clamp each numeric field into `[0, 1]`, cap the joke list
at 10 and the note list at 20, bump the interaction count. -/
def updateRelationship (current : Relationship) (updates : RelUpdates)
    (now : ℤ) : Relationship :=
  { affection := clamp (current.affection + updates.affection.getD 0) 0 1,
    trust := clamp (current.trust + updates.trust.getD 0) 0 1,
    familiarity := clamp (current.familiarity + updates.familiarity.getD 0) 0 1,
    rivalry := clamp (current.rivalry + updates.rivalry.getD 0) 0 1,
    insideJokes :=
      match updates.addJoke with
      | some j => lastN 10 (current.insideJokes ++ [j])
      | none => current.insideJokes,
    nickname :=
      match updates.nickname with
      | some n => some n
      | none => current.nickname,
    interaction_count := current.interaction_count + 1,
    notes :=
      match updates.addNote with
      | some n => lastN 20 (current.notes ++ [(n, now)])
      | none => current.notes }

/-! ## String matching utilities

`str.includes(sub)` becomes a character-list substring test;
`/\b(w1|w2|…)\b/i` word-boundary regexes become `anyWordHit` with
JavaScript word characters `[A-Za-z0-9_]`. -/

/-- The first list is matched literally at the front of the second. -/
def leadsIn : List Char → List Char → Bool
  | [], _ => true
  | _ :: _, [] => false
  | a :: as, b :: bs => a == b && leadsIn as bs

/-- `haystack.includes(needle)` over character lists. -/
def occursIn (pat : List Char) : List Char → Bool
  | [] => leadsIn pat []
  | c :: rest => leadsIn pat (c :: rest) || occursIn pat rest

/-- `haystack.includes(needle)` for strings. -/
def occursInStr (needle haystack : String) : Bool :=
  occursIn needle.data haystack.data

/-- ASCII lowercasing, matching `String.prototype.toLowerCase` on the ASCII
word lists used by the source. -/
def toLowerStr (s : String) : String := String.mk (s.data.map Char.toLower)

/-- JavaScript regex word character `\w = [A-Za-z0-9_]`. -/
def isWordChar (c : Char) : Bool := c.isAlpha || c.isDigit || c == '_'

def boundaryBefore : Option Char → Bool
  | none => true
  | some c => !isWordChar c

def boundaryAfter : List Char → Bool
  | [] => true
  | c :: _ => !isWordChar c

/-- Scan for a `\b pat \b` match, remembering the previous character. -/
def wordHitAux (pat : List Char) : Option Char → List Char → Bool
  | prev, [] => boundaryBefore prev && leadsIn pat []
  | prev, c :: rest =>
      (boundaryBefore prev && leadsIn pat (c :: rest) &&
        boundaryAfter ((c :: rest).drop pat.length)) ||
      wordHitAux pat (some c) rest

/-- `/\b pat \b/i.test(msg)` for a literal alternative `pat`. -/
def wordHit (pat msg : String) : Bool :=
  wordHitAux (toLowerStr pat).data none (toLowerStr msg).data

/-- `/\b(p1|p2|…)\b/i.test(msg)`. -/
def anyWordHit (pats : List String) (msg : String) : Bool :=
  pats.any (fun p => wordHit p msg)

/-- A character-class regex test such as `/[😂🤣😜😏]/.test(msg)`. -/
def containsAnyChar (chars : List Char) (msg : String) : Bool :=
  msg.data.any (fun c => chars.contains c)

/-- An apostrophe character, spelled by code point for the word lists
containing contractions. -/
def aposChar : Char := Char.ofNat 39

/-! ## llmEvaluator (src/src/services/llmEvaluator.js)

The network call is the abstract contract; what is embedded is the
validation/clamping applied to a parsed JSON result (`null` results are
`Option.none`).  `x || d` on a JavaScript number treats `0` as missing,
`x || d` on a string treats `""` as missing. -/

/-- `x || d` for numbers: `0`, `null` and `undefined` all fall back. -/
def jsOr (x : Option ℚ) (d : ℚ) : ℚ :=
  match x with
  | none => d
  | some v => if v = 0 then d else v

/-- `x || d` for strings: `""`, `null` and `undefined` all fall back. -/
def jsOrStr (x : Option String) (d : String) : String :=
  match x with
  | none => d
  | some s => if s = "" then d else s

/-- `x || null` for strings. -/
def jsStrOrNull (x : Option String) : Option String :=
  match x with
  | none => none
  | some s => if s = "" then none else some s

/-- `!!x` on a possibly-missing boolean. -/
def jsBool (x : Option Bool) : Bool := x.getD false

/-- Truthiness of a possibly-missing string (`if (x)`). -/
def jsTruthyStr (x : Option String) : Bool :=
  match x with
  | none => false
  | some s => s ≠ ""

/-- Raw `trustIndicators` object from the evaluator JSON. -/
structure RawTrustIndicators where
  sharedVulnerability : Option Bool := none
  askedForHelp : Option Bool := none
  showedCare : Option Bool := none
  wasHonest : Option Bool := none

/-- Raw `relationshipDeltas` object from the evaluator JSON. -/
structure RawDeltas where
  affection : Option ℚ := none
  trust : Option ℚ := none
  familiarity : Option ℚ := none
  rivalry : Option ℚ := none

/-- A parsed (but unvalidated) relationship-evaluator JSON result. -/
structure RawRelEval where
  interactionQuality : Option String := none
  emotionalDepth : Option ℚ := none
  trustIndicators : Option RawTrustIndicators := none
  relationshipDeltas : Option RawDeltas := none
  suggestedInsideJoke : Option String := none
  noteworthyMoment : Option String := none
  reasoning : Option String := none

/-- Validated `trustIndicators`. -/
structure TrustIndicators where
  sharedVulnerability : Bool
  askedForHelp : Bool
  showedCare : Bool
  wasHonest : Bool

/-- Validated `relationshipDeltas`. -/
structure RelDeltas where
  affection : ℚ
  trust : ℚ
  familiarity : ℚ
  rivalry : ℚ

/-- The validated value returned by `evaluateRelationship` when the LLM call
produced a result. -/
structure EvaluatedRelEval where
  interactionQuality : String
  emotionalDepth : ℚ
  trustIndicators : TrustIndicators
  relationshipDeltas : RelDeltas
  suggestedInsideJoke : Option String
  noteworthyMoment : Option String
  reasoning : String

/-- The validation step of `evaluateRelationship`
(src/src/services/llmEvaluator.js lines 288–309): clamp every delta into the
fixed safety bounds regardless of what the evaluator returned. -/
def evaluateRelationshipParse (result : RawRelEval) : EvaluatedRelEval :=
  let deltas := result.relationshipDeltas.getD {}
  { interactionQuality := jsOrStr result.interactionQuality "normal",
    emotionalDepth := jsMax 0 (jsMin 1 (jsOr result.emotionalDepth 0.3)),
    trustIndicators :=
      { sharedVulnerability := jsBool (result.trustIndicators.bind (·.sharedVulnerability)),
        askedForHelp := jsBool (result.trustIndicators.bind (·.askedForHelp)),
        showedCare := jsBool (result.trustIndicators.bind (·.showedCare)),
        wasHonest := jsBool (result.trustIndicators.bind (·.wasHonest)) },
    relationshipDeltas :=
      { affection := jsMax (-0.05) (jsMin 0.05 (jsOr deltas.affection 0.005)),
        trust := jsMax (-0.03) (jsMin 0.03 (jsOr deltas.trust 0.002)),
        familiarity := jsMax 0.005 (jsMin 0.02 (jsOr deltas.familiarity 0.01)),
        rivalry := jsMax (-0.02) (jsMin 0.02 (jsOr deltas.rivalry 0)) },
    suggestedInsideJoke := jsStrOrNull result.suggestedInsideJoke,
    noteworthyMoment := jsStrOrNull result.noteworthyMoment,
    reasoning := jsOrStr result.reasoning "" }

/-- Raw `detectedPatterns` object from the mood-evaluator JSON. -/
structure RawDetectedPatterns where
  isChallenge : Option Bool := none
  isCompliment : Option Bool := none
  isPlayful : Option Bool := none
  isVulnerable : Option Bool := none
  isRude : Option Bool := none
  isSarcastic : Option Bool := none

/-- A parsed (but unvalidated) mood-evaluator JSON result. -/
structure RawMoodEval where
  sentiment : Option ℚ := none
  dominantEmotion : Option String := none
  suggestedMood : Option String := none
  moodConfidence : Option ℚ := none
  triggerReason : Option String := none
  detectedPatterns : Option RawDetectedPatterns := none

/-- Validated `detectedPatterns`. -/
structure DetectedPatterns where
  isChallenge : Bool
  isCompliment : Bool
  isPlayful : Bool
  isVulnerable : Bool
  isRude : Bool
  isSarcastic : Bool

/-- The validated value returned by `evaluateMood` on success. -/
structure MoodEvalResult where
  sentiment : ℚ
  dominantEmotion : String
  suggestedMood : String
  moodConfidence : ℚ
  triggerReason : String
  detectedPatterns : DetectedPatterns

/-- The validation step of `evaluateMood`
(src/src/services/llmEvaluator.js lines 194–211). -/
def evaluateMoodParse (result : RawMoodEval) : MoodEvalResult :=
  { sentiment := jsMax (-1) (jsMin 1 (jsOr result.sentiment 0)),
    dominantEmotion := jsOrStr result.dominantEmotion "neutral",
    suggestedMood := jsOrStr result.suggestedMood "neutral",
    moodConfidence := jsMax 0 (jsMin 1 (jsOr result.moodConfidence 0.5)),
    triggerReason := jsOrStr result.triggerReason "",
    detectedPatterns :=
      { isChallenge := jsBool (result.detectedPatterns.bind (·.isChallenge)),
        isCompliment := jsBool (result.detectedPatterns.bind (·.isCompliment)),
        isPlayful := jsBool (result.detectedPatterns.bind (·.isPlayful)),
        isVulnerable := jsBool (result.detectedPatterns.bind (·.isVulnerable)),
        isRude := jsBool (result.detectedPatterns.bind (·.isRude)),
        isSarcastic := jsBool (result.detectedPatterns.bind (·.isSarcastic)) } }

/-! ## Interaction analysis (src/unnamed/part_005 lines 543–730) -/

/-- The analysis record produced by `analyzeMessage` (either from the LLM
result or the keyword fallback). -/
structure MoodAnalysis where
  sentiment : ℚ
  suggestedMood : Option String
  moodConfidence : ℚ
  triggerReason : Option String
  dominantEmotion : String
  isChallenge : Bool
  isCompliment : Bool
  isPlayful : Bool
  isVulnerable : Bool
  isRude : Bool
  isSarcastic : Bool
  isPotentialJoke : Bool
  isQuestion : Bool
  mentionsBeboa : Bool
  usedLLM : Bool

/-- The positive sentiment keywords of `analyzeMessageKeywordFallback`. -/
def positiveWords : List String :=
  ["love", "like", "thanks", "awesome", "great", "amazing", "cute", "best",
   "happy", "appreciate", "❤️", "💕", "😊"]

/-- The negative sentiment keywords of `analyzeMessageKeywordFallback`. -/
def negativeWords : List String :=
  ["hate", "stupid", "dumb", "annoying", "worst", "bad", "ugly", "boring",
   "shut up", "stfu"]

/-- The two contraction alternatives of the challenge regex. -/
def cantWord : String := "can" ++ String.mk [aposChar] ++ "t"

def couldntWord : String := "couldn" ++ String.mk [aposChar] ++ "t"

/-- `analyzeMessageKeywordFallback(message)` (lines 679–712): keyword
sentiment, pattern booleans, no suggested mood. -/
def analyzeMessageKeywordFallback (message : String) : MoodAnalysis :=
  let lower := toLowerStr message
  let s0 : ℚ := positiveWords.foldl
    (fun s w => if occursInStr w lower then s + 0.2 else s) 0
  let s1 : ℚ := negativeWords.foldl
    (fun s w => if occursInStr w lower then s - 0.3 else s) s0
  let sentiment := jsMax (-1) (jsMin 1 s1)
  { sentiment := sentiment,
    suggestedMood := none,
    moodConfidence := 0,
    triggerReason := none,
    dominantEmotion := "neutral",
    isChallenge := anyWordHit ["bet", "fight me", "prove", cantWord, couldntWord, "dare"] message,
    isCompliment := anyWordHit ["cute", "smart", "best", "love you", "thank", "amazing"] message,
    isPlayful := anyWordHit ["lol", "lmao", "haha", "jk", "tease", "poke"] message ||
      containsAnyChar ['😂', '🤣', '😜', '😏'] message,
    isVulnerable := anyWordHit ["sad", "depressed", "anxious", "scared", "lonely", "struggling", "help me"] message,
    isRude := anyWordHit ["shut up", "stfu", "hate you", "stupid", "dumb", "idiot"] message,
    isSarcastic := false,
    isPotentialJoke := anyWordHit ["remember when", "that time", "lmao", "haha", "iconic"] message,
    isQuestion := occursInStr "?" message,
    mentionsBeboa := anyWordHit ["beboa", "snake", "snek"] message,
    usedLLM := false }

/-- `analyzeMessage(message, context)` (lines 645–674): use the validated
LLM result when the contract returned one, otherwise the keyword fallback. -/
def analyzeMessage (message : String) (llm : Option RawMoodEval) : MoodAnalysis :=
  match llm with
  | some raw =>
      let r := evaluateMoodParse raw
      { sentiment := r.sentiment,
        suggestedMood := some r.suggestedMood,
        moodConfidence := r.moodConfidence,
        triggerReason := some r.triggerReason,
        dominantEmotion := r.dominantEmotion,
        isChallenge := r.detectedPatterns.isChallenge,
        isCompliment := r.detectedPatterns.isCompliment,
        isPlayful := r.detectedPatterns.isPlayful,
        isVulnerable := r.detectedPatterns.isVulnerable,
        isRude := r.detectedPatterns.isRude,
        isSarcastic := r.detectedPatterns.isSarcastic,
        isPotentialJoke := r.detectedPatterns.isPlayful,
        isQuestion := occursInStr "?" message,
        mentionsBeboa := anyWordHit ["beboa", "snake", "snek"] message,
        usedLLM := true }
  | none => analyzeMessageKeywordFallback message

/-- `extractJokeReference(message)` (lines 714–718). -/
def extractJokeReference (message : String) : String :=
  let words := String.intercalate " " ((message.splitOn " ").take 6)
  if 50 < words.length then String.mk (words.data.take 50) ++ "..." else words

/-- The whole mutable world touched by `processInteraction`: the singleton
personality row, its in-process cache, and the relationship table. -/
structure WorldState where
  personality : PersonalityRow
  personalityCache : Option (ℤ × PersonalityView)
  relationships : String → Option Relationship

/-- `getRelationship(userId)` (lines 407–461): the stored row or the lazily
created default, together with the derived stage.  (The 30-second
relationship cache is coherent with the table in the single-writer call
sequences modelled here, so it is read through.) -/
def getRelationshipFor (db : String → Option Relationship) (userId : String) :
    Relationship × StageKey :=
  let rel := (db userId).getD defaultRelationship
  (rel, determineRelationshipStage rel.familiarity)

/-- `setMood` as a world-state step: writes the row and nulls the cache. -/
def applySetMood (st : WorldState) (m : MoodName) (reason : String) (now : ℤ) :
    WorldState :=
  { st with
    personality := setMood st.personality m reason now
    personalityCache := none }

/-- `setMood` called with an arbitrary mood-name string: unknown names are
rejected with no state change (lines 301–304). -/
def moodOfString (s : String) : Option MoodName :=
  if s = "neutral" then some .neutral
  else if s = "happy" then some .happy
  else if s = "annoyed" then some .annoyed
  else if s = "mischievous" then some .mischievous
  else if s = "protective" then some .protective
  else if s = "flustered" then some .flustered
  else if s = "bored" then some .bored
  else if s = "energetic" then some .energetic
  else if s = "melancholic" then some .melancholic
  else if s = "competitive" then some .competitive
  else if s = "smug" then some .smug
  else if s = "soft" then some .soft
  else none

def applySetMoodStr (st : WorldState) (name : String) (reason : String)
    (now : ℤ) : WorldState :=
  match moodOfString name with
  | some m => applySetMood st m reason now
  | none => st

/-- `evolveTrait` as a world-state step: on a real change, write the row and
null the cache; on a negligible-delta no-op, leave everything alone. -/
def applyEvolveTrait (st : WorldState) (name : TraitName) (delta : ℚ) :
    WorldState :=
  let res := evolveTrait st.personality.traits name delta true
  if res.2 then
    { st with
      personality := { st.personality with traits := res.1 }
      personalityCache := none }
  else st

/-- The mood-handling block of `processInteraction` (lines 553–580):
high-confidence LLM mood suggestions are adopted; otherwise deterministic
pattern rules fire. -/
def handleMoodStage (st : WorldState) (analysis : MoodAnalysis) (now : ℤ) :
    WorldState :=
  if analysis.usedLLM ∧ jsTruthyStr analysis.suggestedMood = true ∧
      (0.6 : ℚ) < analysis.moodConfidence then
    applySetMoodStr st (analysis.suggestedMood.getD "")
      (jsOrStr analysis.triggerReason "llm_analysis") now
  else
    if analysis.sentiment < -0.5 then
      if analysis.isChallenge then
        applyEvolveTrait (applySetMood st .competitive "was_challenged" now)
          .competitiveness 0.01
      else if analysis.isRude then
        applyEvolveTrait (applySetMood st .annoyed "rude_message" now)
          .patience (-0.005)
      else st
    else if 0.5 < analysis.sentiment then
      if analysis.isCompliment then
        applyEvolveTrait (applySetMood st .flustered "received_compliment" now)
          .tsundereLevel 0.005
      else if analysis.isPlayful then
        applyEvolveTrait (applySetMood st .mischievous "playful_banter" now)
          .playfulness 0.005
      else if analysis.isVulnerable then
        applyEvolveTrait
          (applyEvolveTrait (applySetMood st .protective "someone_vulnerable" now)
            .protectiveness 0.01)
          .vulnerability 0.005
      else st
    else st

/-- The relationship-delta block of `processInteraction` (lines 591–622):
LLM deltas (plus trust-indicator trait evolutions) when the evaluator
answered, otherwise the fixed fallback deltas. -/
def relUpdatesStage (st : WorldState) (llmRelEval : Option EvaluatedRelEval)
    (analysis : MoodAnalysis) (message : String) (rand : ℚ) :
    RelUpdates × WorldState :=
  match llmRelEval with
  | some ev =>
      let st :=
        if ev.trustIndicators.sharedVulnerability then
          applyEvolveTrait (applyEvolveTrait st .vulnerability 0.005)
            .protectiveness 0.003
        else st
      let st :=
        if ev.trustIndicators.showedCare then
          applyEvolveTrait st .agreeableness 0.003
        else st
      ({ affection := some ev.relationshipDeltas.affection,
         trust := some ev.relationshipDeltas.trust,
         familiarity := some ev.relationshipDeltas.familiarity,
         rivalry := some ev.relationshipDeltas.rivalry,
         addJoke := ev.suggestedInsideJoke,
         addNote := ev.noteworthyMoment,
         nickname := none }, st)
  | none =>
      ({ familiarity := some 0.01,
         affection := some (if 0 < analysis.sentiment then 0.005
           else if analysis.sentiment < -0.3 then -0.002 else 0),
         trust := some (if analysis.isVulnerable then 0.02 else 0.002),
         addJoke := if analysis.isPotentialJoke ∧ rand < 0.1 then
             some (extractJokeReference message)
           else none,
         rivalry := none, nickname := none, addNote := none }, st)

/-- `evolveFromPatterns(userId)` (lines 720–730). -/
def evolveFromPatterns (st : WorldState) (userId : String) : WorldState :=
  let rel := (getRelationshipFor st.relationships userId).1
  let st := if 0.7 < rel.affection then
      applyEvolveTrait st .agreeableness 0.002
    else st
  if 0.5 < rel.rivalry then applyEvolveTrait st .competitiveness 0.003 else st

/-- The value returned by `processInteraction`. -/
structure ProcResult where
  moodChanged : Bool
  relationshipUpdated : Bool
  analysis : MoodAnalysis
  llmRelEval : Option EvaluatedRelEval

/-- `processInteraction(userId, userName, message, response)` (lines
543–637).  The two external evaluator contracts appear as the
possibly-null parsed JSON results `moodEval` and `relEval`; `rand` is the
`Math.random()` draw of the fallback joke branch. -/
def processInteraction (st₀ : WorldState) (userId : String) (message : String)
    (_response : String) (moodEval : Option RawMoodEval)
    (relEval : Option RawRelEval) (rand : ℚ) (now : ℤ) :
    ProcResult × WorldState :=
  let relationship := getRelationshipFor st₀.relationships userId
  let gp := getPersonalityState st₀.personality st₀.personalityCache now
  let personality := gp.1
  let st1 : WorldState := ⟨gp.2.1, gp.2.2, st₀.relationships⟩
  let analysis := analyzeMessage message moodEval
  let st2 := handleMoodStage st1 analysis now
  let llmRelEval := relEval.map evaluateRelationshipParse
  let pair := relUpdatesStage st2 llmRelEval analysis message rand
  let updated := updateRelationship relationship.1 pair.1 now
  let st4 : WorldState := ⟨pair.2.personality, pair.2.personalityCache,
    fun u => if u = userId then some updated else pair.2.relationships u⟩
  let st5 := if relationship.1.interaction_count % 20 = 0 then
      evolveFromPatterns st4 userId
    else st4
  let gp2 := getPersonalityState st5.personality st5.personalityCache now
  let st6 : WorldState := ⟨gp2.2.1, gp2.2.2, st5.relationships⟩
  ({ moodChanged := decide (personality.currentMood ≠ gp2.1.currentMood),
     relationshipUpdated := true,
     analysis := analysis,
     llmRelEval := llmRelEval }, st6)

/-- The stored trait map after a sequence of `evolveTrait(name, delta, event)`
calls (default clamping) starting from the initialized base traits. -/
def evolvedTraits (l : List (TraitName × ℚ)) : TraitName → ℚ :=
  l.foldl (fun tr p => (evolveTrait tr p.1 p.2 true).1) initialTraits

/-- The all-ones delta update of the saturation property. -/
def plusOneUpdates : RelUpdates :=
  { affection := some 1, trust := some 1, familiarity := some 1, rivalry := some 1 }

/-! ## Message ingestion (src/src/services/messageIngestion.js) -/

/-- `TOPIC_KEYWORDS` (lines 106–112). -/
def TOPIC_KEYWORDS : List String :=
  ["project", "idea", "plan", "decision", "announce", "update",
   "problem", "solution", "help", "question", "opinion", "think",
   "remember", "important", "meeting", "event", "date", "deadline",
   "agree", "disagree", "proposal", "suggest", "recommend", "vote",
   "finally", "actually", "honestly", "seriously", "literally"]

/-- The word alternatives of `QUESTION_PATTERN` (line 115). -/
def interrogativeWords : List String :=
  ["what", "why", "how", "when", "where", "who", "which", "would", "could",
   "should", "can", "is there", "are there", "do you", "does anyone",
   "has anyone", "will", "shall"]

/-- The word alternatives of `EMOTIONAL_PATTERN` (line 118). -/
def emotionWords : List String :=
  ["love", "hate", "amazing", "terrible", "excited", "angry", "sad", "happy",
   "awesome", "awful", "incredible", "horrible", "best", "worst"]

/-- An ASCII letter of either case: what the class `[A-Z]` matches under the
regex's `/i` flag (ECMAScript case canonicalization maps `a`–`z` into the
class; no non-ASCII character canonicalizes into it in non-unicode mode). -/
def isAsciiLetter (c : Char) : Bool :=
  ('A' ≤ c && c ≤ 'Z') || ('a' ≤ c && c ≤ 'z')

/-- `[A-Z]{3,}` with the `/i` flag: three consecutive ASCII letters of
either case somewhere. -/
def hasTripleLetterRun : List Char → Bool
  | a :: b :: c :: rest =>
      (isAsciiLetter a && isAsciiLetter b && isAsciiLetter c) ||
        hasTripleLetterRun (b :: c :: rest)
  | _ => false

/-- `/\?$/`: the string ends with a question mark. -/
def endsInQM (s : String) : Bool :=
  match s.data.getLast? with
  | some c => c == '?'
  | none => false

/-- `QUESTION_PATTERN.test(content)`. -/
def questionTest (content : String) : Bool :=
  anyWordHit interrogativeWords content || endsInQM content

/-- `EMOTIONAL_PATTERN.test(raw)`: repeated `!`, a run of three letters (the
whole pattern carries the `/i` flag, so `[A-Z]{3,}` matches any-case runs),
or a strong sentiment word. -/
def emotionalTest (raw : String) : Bool :=
  occursInStr "!!" raw || hasTripleLetterRun raw.data || anyWordHit emotionWords raw

/-- `content.split(/\s+/).filter(w => w.length > 0)`: the maximal runs of
non-whitespace characters. -/
def splitWordsCore : List Char → List Char → List (List Char)
  | [], acc => if acc.isEmpty then [] else [acc.reverse]
  | c :: rest, acc =>
      if c.isWhitespace then
        if acc.isEmpty then splitWordsCore rest []
        else acc.reverse :: splitWordsCore rest []
      else splitWordsCore rest (c :: acc)

def contentWords (content : String) : List (List Char) :=
  splitWordsCore content.data []

/-- The Discord message fields read by ingestion: scalar metadata plus the
text (mention counts stand for the sizes of the mention collections). -/
structure DiscordMsg where
  id : String
  channelId : String
  guildId : Option String
  authorId : String
  authorName : String
  authorBot : Bool
  content : String
  mentionUsers : ℕ
  mentionRoles : ℕ
  mentionChannels : ℕ
  attachments : ℕ
  replyToId : Option String
  createdAt : ℤ

/-- `calculateImportanceScore(message, channelState)` (lines 124–180):
independent weighted signals, each capped, summed and clamped to `[0, 1]`.
`lastMessageTime` is `channelState.lastMessageTime || 0`; `now` is
`Date.now()`. -/
def calculateImportanceScore (message : DiscordMsg) (lastMessageTime : ℤ)
    (now : ℤ) : ℚ :=
  let content := toLowerStr message.content
  let wordCount := (contentWords content).length
  let lenScore : ℚ :=
    if 10 ≤ wordCount ∧ wordCount ≤ 50 then 0.15
    else if 5 ≤ wordCount ∧ wordCount < 10 then 0.08
    else if 3 ≤ wordCount ∧ wordCount < 5 then 0.03
    else 0
  let questionScore : ℚ := if questionTest content then 0.20 else 0
  let mentionCount := message.mentionUsers + message.mentionRoles + message.mentionChannels
  let mentionScore : ℚ := jsMin 0.15 ((mentionCount : ℚ) * 0.05)
  let topicMatches := (TOPIC_KEYWORDS.filter (fun kw => occursInStr kw content)).length
  let topicScore : ℚ := jsMin 0.15 ((topicMatches : ℚ) * 0.03)
  let emotionalScore : ℚ := if emotionalTest message.content then 0.10 else 0
  let timeSince := now - lastMessageTime
  let quietScore : ℚ :=
    if 30 * 60 * 1000 < timeSince then 0.10
    else if 10 * 60 * 1000 < timeSince then 0.05
    else 0
  let attachScore : ℚ := if 0 < message.attachments then 0.05 else 0
  let replyScore : ℚ := if message.replyToId.isSome then 0.05 else 0
  jsMin 1 (jsMax 0 (lenScore + questionScore + mentionScore + topicScore +
    emotionalScore + quietScore + attachScore + replyScore))

/-- The configuration fields read by ingestion. -/
structure IngestConfig where
  SERVER_MEMORY_ENABLED : Bool
  IMPORTANCE_THRESHOLD : Option ℚ
  SERVER_MEMORY_EXCLUDED_CHANNELS : List String
  SERVER_MEMORY_CHANNELS : List String

/-- `shouldEmbed(score, threshold = null)` (lines 185–188):
`score >= (threshold ?? (config.IMPORTANCE_THRESHOLD || 0.3))`. -/
def shouldEmbed (cfg : IngestConfig) (score : ℚ) (threshold : Option ℚ) : Bool :=
  decide (threshold.getD (jsOr cfg.IMPORTANCE_THRESHOLD 0.3) ≤ score)

/-- `server_messages.embedding_status`. -/
inductive EmbedStatus where
  | pending | embedded | skipped | failed
deriving DecidableEq

/-- One `server_messages` row. -/
structure MessageRow where
  id : ℕ
  message_id : String
  channel_id : String
  guild_id : String
  author_id : String
  author_name : String
  content : String
  content_length : ℕ
  has_attachments : Bool
  reply_to_id : Option String
  importance_score : ℚ
  embedding_status : EmbedStatus
  discord_created_at : ℤ
deriving DecidableEq

/-- `embedding_queue.status`. -/
inductive QStatus where
  | pending | completed | failed
deriving DecidableEq

/-- One `embedding_queue` row (timestamps dropped; the table's insertion
order stands for `created_at` order). -/
structure EmbedQueueItem where
  id : ℕ
  message_id : ℕ
  priority : ℤ
  retry_count : ℕ
  status : QStatus
  error_message : Option String
deriving DecidableEq

/-- One `server_embeddings` row (the raw vector BLOB is irrelevant to the
claims and dropped). -/
structure StoredEmbedding where
  message_id : ℕ
  source_text : String
deriving DecidableEq

/-- The shared SQLite state: `server_messages`, `embedding_queue`,
`server_embeddings`, with autoincrement counters. -/
structure ServerDB where
  messages : List MessageRow
  queue : List EmbedQueueItem
  embeddings : List StoredEmbedding
  nextMessageId : ℕ
  nextQueueId : ℕ

/-- The result object of `ingestMessage`. -/
structure IngestResult where
  skipped : Bool := false
  reason : Option String := none
  success : Bool := false
  messageId : Option String := none
  importanceScore : Option ℚ := none
  willEmbed : Option Bool := none
  stored : Option Bool := none
deriving DecidableEq

def skipResult (r : String) : IngestResult := { skipped := true, reason := some r }

/-- `queueForEmbedding` (lines 84–87): `INSERT OR IGNORE INTO embedding_queue`.
Migration 006 declares no unique constraint on `embedding_queue` beyond its
autoincrement primary key, so the `OR IGNORE` never fires and the insert
always appends a row. -/
def queueForEmbedding (db : ServerDB) (messageRowId : ℕ) (priority : ℤ) :
    ServerDB :=
  { db with
    queue := db.queue ++
      [{ id := db.nextQueueId, message_id := messageRowId,
         priority := priority, retry_count := 0, status := .pending,
         error_message := none }]
    nextQueueId := db.nextQueueId + 1 }

/-- `content.trim().length === 0`. -/
def blankContent (s : String) : Bool := s.data.all (fun c => c.isWhitespace)

/-- The `server_messages` row built by `ingestMessage` for an accepted
message (lines 253–266). -/
def ingestRow (cfg : IngestConfig) (db : ServerDB)
    (channelLast : String → Option ℤ) (message : DiscordMsg) (now : ℤ) :
    MessageRow :=
  let importanceScore :=
    calculateImportanceScore message ((channelLast message.channelId).getD 0) now
  { id := db.nextMessageId, message_id := message.id,
    channel_id := message.channelId,
    guild_id := message.guildId.getD "",
    author_id := message.authorId, author_name := message.authorName,
    content := message.content,
    content_length := message.content.length,
    has_attachments := 0 < message.attachments,
    reply_to_id := message.replyToId,
    importance_score := importanceScore,
    embedding_status :=
      if shouldEmbed cfg importanceScore none then EmbedStatus.pending
      else EmbedStatus.skipped,
    discord_created_at := message.createdAt }

/-- The accepted-message path of `ingestMessage` (lines 236–300): importance
scoring with the per-channel recency map (updated as a side effect),
insert-or-ignore keyed by the external message id, conditional enqueueing
with `priority = round(score × 100)`. -/
def ingestAccepted (cfg : IngestConfig) (db : ServerDB)
    (channelLast : String → Option ℤ) (message : DiscordMsg) (now : ℤ) :
    IngestResult × ServerDB × (String → Option ℤ) :=
  let importanceScore :=
    calculateImportanceScore message ((channelLast message.channelId).getD 0) now
  let channelLastNew : String → Option ℤ :=
    fun c => if c = message.channelId then some now else channelLast c
  let willEmbed := shouldEmbed cfg importanceScore none
  match db.messages.find? (fun r => r.message_id == message.id) with
  | some _ =>
      ({ success := true, messageId := some message.id,
         importanceScore := some importanceScore,
         willEmbed := some willEmbed, stored := some false },
        db, channelLastNew)
  | none =>
      let row := ingestRow cfg db channelLast message now
      let db1 :=
        { db with
          messages := db.messages ++ [row]
          nextMessageId := db.nextMessageId + 1 }
      let db2 :=
        if willEmbed then
          match db1.messages.find? (fun r => r.message_id == message.id) with
          | some storedMessage =>
              queueForEmbedding db1 storedMessage.id (round (importanceScore * 100))
          | none => db1
        else db1
      ({ success := true, messageId := some message.id,
         importanceScore := some importanceScore,
         willEmbed := some willEmbed, stored := some true },
        db2, channelLastNew)

/-- `ingestMessage(message)` (lines 197–306): the skip checks, then the
accepted path.  The `channel_metadata` upsert (a non-critical side table)
is not modelled. -/
def ingestMessage (cfg : IngestConfig) (db : ServerDB)
    (channelLast : String → Option ℤ) (message : DiscordMsg) (now : ℤ) :
    IngestResult × ServerDB × (String → Option ℤ) :=
  if ¬cfg.SERVER_MEMORY_ENABLED then (skipResult "disabled", db, channelLast)
  else if message.authorBot then (skipResult "bot", db, channelLast)
  else if blankContent message.content then (skipResult "empty", db, channelLast)
  else if message.guildId.isNone then (skipResult "dm", db, channelLast)
  else if cfg.SERVER_MEMORY_EXCLUDED_CHANNELS.contains message.channelId then
    (skipResult "excluded_channel", db, channelLast)
  else if cfg.SERVER_MEMORY_CHANNELS ≠ [] ∧
      ¬cfg.SERVER_MEMORY_CHANNELS.contains message.channelId then
    (skipResult "not_in_allowlist", db, channelLast)
  else ingestAccepted cfg db channelLast message now

/-! ## Embedding queue processor (src/src/services/serverMemory.js) -/

/-- `getPendingQueue` (lines 500–507): the pending items joined with their
message rows, ordered by priority descending (stable: the table's insertion
order stands for the `created_at ASC` tie-break), limited to the batch
size. -/
def getPendingQueue (db : ServerDB) (limit : ℕ) : List EmbedQueueItem :=
  (sortKeyDesc (fun q => q.priority)
    (db.queue.filter (fun q => q.status == QStatus.pending &&
      db.messages.any (fun m => m.id == q.message_id)))).take limit

/-- The outcome of one `generateEmbedding` contract call for a batch:
a batch-level failure, or a success together with the set of items whose
subsequent per-item store throws. -/
inductive BatchOutcome where
  | failure (error : String)
  | success (storeFail : ℕ → Bool)

/-- One run of `processBatch` (lines 576–660) under a given contract
outcome.  On batch failure: items with fewer than 3 retries get their retry
count incremented (staying `pending`); items already at 3 retries are marked
`failed` and their message marked `failed`.  On success: each item's vector
is stored (source text truncated to 500), item `completed` and message
`embedded`, except items whose store throws, which are marked `failed`. -/
def processBatch (db : ServerDB) (outcome : BatchOutcome) (batchSize : ℕ) :
    ServerDB :=
  let pending := getPendingQueue db batchSize
  if pending.isEmpty then db
  else
    match outcome with
    | .failure err =>
        { db with
          queue := db.queue.map (fun q =>
            if pending.any (fun p => p.id == q.id) then
              if q.retry_count < 3 then
                { q with
                  retry_count := q.retry_count + 1
                  error_message := some err }
              else
                { q with
                  status := QStatus.failed
                  error_message := some err }
            else q)
          messages := db.messages.map (fun m =>
            if pending.any (fun p => p.message_id == m.id && !(p.retry_count < 3)) then
              { m with embedding_status := EmbedStatus.failed }
            else m) }
    | .success storeFail =>
        { db with
          queue := db.queue.map (fun q =>
            if pending.any (fun p => p.id == q.id) then
              if storeFail q.id then
                { q with
                  status := QStatus.failed
                  error_message := some "store error" }
              else
                { q with
                  status := QStatus.completed
                  error_message := none }
            else q)
          messages := db.messages.map (fun m =>
            match pending.find? (fun p => p.message_id == m.id) with
            | some p =>
                { m with embedding_status :=
                    if storeFail p.id then EmbedStatus.failed else EmbedStatus.embedded }
            | none => m)
          embeddings := db.embeddings ++
            (pending.filter (fun p => !storeFail p.id)).map (fun p =>
              { message_id := p.message_id,
                source_text :=
                  match db.messages.find? (fun m => m.id == p.message_id) with
                  | some m => String.mk (m.content.data.take 500)
                  | none => "" }) }

/-- The queue status of the item with a given id. -/
def queueStatusOf (db : ServerDB) (qid : ℕ) : Option QStatus :=
  (db.queue.find? (fun q => q.id == qid)).map (·.status)

/-- A freshly initialized personality row put into the `annoyed` mood at
time 0 (concrete state for the effective-trait counterexample). -/
def annoyedRow : PersonalityRow := ⟨initialTraits, .annoyed, 0, []⟩

/-- A freshly initialized personality row put into the `flustered` mood at
time 0 (concrete state for the cached-decay counterexample). -/
def flusteredRow : PersonalityRow := ⟨initialTraits, .flustered, 0, []⟩

/-- A two-letter message with no other signal (concrete input for the
zero-score property). -/
def mShort : DiscordMsg :=
  ⟨"m0", "c", some "g", "u", "alice", false, "hi", 0, 0, 0, 0, none, 0⟩

/-- A 20-word question mentioning two users. -/
def mQuestion : DiscordMsg :=
  ⟨"m1", "c", some "g", "u", "alice", false,
    "a b c d e f g h i j k l m n o p q r s t?", 2, 0, 0, 0, none, 0⟩

/-- The same 20 words without the question mark and the mentions. -/
def mPlain : DiscordMsg :=
  ⟨"m2", "c", some "g", "u", "alice", false,
    "a b c d e f g h i j k l m n o p q r s t", 0, 0, 0, 0, none, 0⟩

/-- Concrete ingestion configuration: enabled, default threshold, no channel
restrictions. -/
def c9cfg : IngestConfig := ⟨true, none, [], []⟩

/-- An empty database. -/
def emptyDB : ServerDB := ⟨[], [], [], 1, 1⟩

/-- A database with one pending message and one pending queue item
(concrete state for the retry-count run). -/
def c3db : ServerDB :=
  ⟨[⟨1, "m1", "c", "g", "u", "alice", "hello", 5, false, none, 0,
      EmbedStatus.pending, 0⟩],
    [⟨1, 1, 50, 0, QStatus.pending, none⟩], [], 2, 2⟩

/-- A database whose single queue item has already been marked `failed`
after exhausting its retries. -/
def c3failedDB : ServerDB :=
  ⟨[⟨1, "m1", "c", "g", "u", "alice", "hello", 5, false, none, 0,
      EmbedStatus.failed, 0⟩],
    [⟨1, 1, 50, 3, QStatus.failed, none⟩], [], 2, 2⟩



/-- The embedding status of the message row with a given id. -/
def messageStatusOf (db : ServerDB) (mid : ℕ) : Option EmbedStatus :=
  (db.messages.find? (fun m => m.id == mid)).map (·.embedding_status)

theorem insertKeyDesc_perm {α K : Type*} [LinearOrder K] (key : α → K) (x : α)
    (l : List α) : List.Perm (insertKeyDesc key x l) (x :: l) := by
  induction l with
  | nil => simp [insertKeyDesc]
  | cons y ys ih =>
      by_cases h : key y ≤ key x
      · simp [insertKeyDesc, h]
      · simp only [insertKeyDesc, if_neg h]
        exact List.Perm.trans (ih.cons y) (List.Perm.swap x y ys)

theorem sortKeyDesc_perm {α K : Type*} [LinearOrder K] (key : α → K)
    (l : List α) : List.Perm (sortKeyDesc key l) l := by
  induction l with
  | nil => simp [sortKeyDesc]
  | cons x xs ih =>
      exact List.Perm.trans (insertKeyDesc_perm key x _) (ih.cons x)

theorem mem_sortKeyDesc {α K : Type*} [LinearOrder K] {key : α → K}
    {l : List α} {a : α} : a ∈ sortKeyDesc key l ↔ a ∈ l :=
  (sortKeyDesc_perm key l).mem_iff

theorem length_sortKeyDesc {α K : Type*} [LinearOrder K] (key : α → K)
    (l : List α) : (sortKeyDesc key l).length = l.length :=
  (sortKeyDesc_perm key l).length_eq

theorem pairwise_insertKeyDesc {α K : Type*} [LinearOrder K] {key : α → K}
    {x : α} {l : List α} (h : l.Pairwise (fun a b => key b ≤ key a)) :
    (insertKeyDesc key x l).Pairwise (fun a b => key b ≤ key a) := by
  induction l with
  | nil => simp [insertKeyDesc]
  | cons y ys ih =>
      rcases List.pairwise_cons.mp h with ⟨hy, hys⟩
      by_cases hxy : key y ≤ key x
      · simp only [insertKeyDesc, if_pos hxy]
        refine List.pairwise_cons.mpr ⟨?_, h⟩
        intro z hz
        rcases List.mem_cons.mp hz with rfl | hz
        · exact hxy
        · exact le_trans (hy z hz) hxy
      · simp only [insertKeyDesc, if_neg hxy]
        refine List.pairwise_cons.mpr ⟨?_, ih hys⟩
        intro z hz
        rcases List.mem_cons.mp ((insertKeyDesc_perm key x ys).mem_iff.mp hz) with rfl | h'
        · exact le_of_lt (lt_of_not_le hxy)
        · exact hy z h'

/-- The stable sort really sorts: its output is pairwise descending in the key. -/
theorem sortKeyDesc_pairwise {α K : Type*} [LinearOrder K] (key : α → K)
    (l : List α) : (sortKeyDesc key l).Pairwise (fun a b => key b ≤ key a) := by
  induction l with
  | nil => simp [sortKeyDesc]
  | cons x xs ih => exact pairwise_insertKeyDesc ih

/-- Inserting an element whose key dominates the whole list puts it in front. -/
theorem insertKeyDesc_of_le {α K : Type*} [LinearOrder K] {key : α → K}
    {x : α} {l : List α} (hall : ∀ z ∈ l, key z ≤ key x) :
    insertKeyDesc key x l = x :: l := by
  cases l with
  | nil => rfl
  | cons z zs =>
      simp only [insertKeyDesc, if_pos (hall z (List.mem_cons_self z zs))]

/-- Elements with one fixed key value are never reordered by a single
insertion: stability of the insertion step. -/
theorem filter_keyEq_insertKeyDesc {α K : Type*} [LinearOrder K] (key : α → K)
    (x : α) (l : List α) (k₀ : K) :
    (insertKeyDesc key x l).filter (fun a => decide (key a = k₀)) =
      if key x = k₀ then x :: l.filter (fun a => decide (key a = k₀))
      else l.filter (fun a => decide (key a = k₀)) := by
  induction l with
  | nil =>
      by_cases hx : key x = k₀
      · rw [if_pos hx]
        simp only [insertKeyDesc, List.filter_cons, List.filter_nil]
        rw [if_pos (by simpa using hx)]
      · rw [if_neg hx]
        simp only [insertKeyDesc, List.filter_cons, List.filter_nil]
        rw [if_neg (by simpa using hx)]
  | cons y ys ih =>
      by_cases hxy : key y ≤ key x
      · simp only [insertKeyDesc, if_pos hxy]
        by_cases hx : key x = k₀
        · rw [if_pos hx, List.filter_cons, if_pos (by simpa using hx)]
        · rw [if_neg hx, List.filter_cons, if_neg (by simpa using hx)]
      · have hyx : key x < key y := lt_of_not_le hxy
        simp only [insertKeyDesc, if_neg hxy]
        by_cases hx : key x = k₀
        · have hy : ¬ key y = k₀ := fun hk => absurd (hx.trans hk.symm) (ne_of_lt hyx)
          rw [if_pos hx, List.filter_cons, if_neg (by simpa using hy),
            List.filter_cons, if_neg (by simpa using hy), ih, if_pos hx]
        · rw [if_neg hx, List.filter_cons, List.filter_cons, ih, if_neg hx]

/-- Stability of the whole sort: the elements sharing any fixed key value
appear in the output in the same order as in the input. -/
theorem sortKeyDesc_stable {α K : Type*} [LinearOrder K] (key : α → K)
    (l : List α) (k₀ : K) :
    (sortKeyDesc key l).filter (fun a => decide (key a = k₀)) =
      l.filter (fun a => decide (key a = k₀)) := by
  induction l with
  | nil => simp [sortKeyDesc]
  | cons x xs ih =>
      by_cases hx : key x = k₀
      · rw [sortKeyDesc, filter_keyEq_insertKeyDesc, if_pos hx, ih,
          List.filter_cons, if_pos (by simpa using hx)]
      · rw [sortKeyDesc, filter_keyEq_insertKeyDesc, if_neg hx, ih,
          List.filter_cons, if_neg (by simpa using hx)]

/-- Filtering by a key-upward-closed predicate commutes with a single
insertion into a descending-sorted list. -/
theorem filter_insertKeyDesc {α K : Type*} [LinearOrder K] {key : α → K}
    (p : α → Bool)
    (hp : ∀ a b, key a ≤ key b → p a = true → p b = true)
    {x : α} {l : List α} (hl : l.Pairwise (fun a b => key b ≤ key a)) :
    (insertKeyDesc key x l).filter p =
      if p x = true then insertKeyDesc key x (l.filter p)
      else l.filter p := by
  induction l with
  | nil =>
      by_cases hx : p x = true
      · rw [if_pos hx]
        simp only [insertKeyDesc, List.filter_cons, List.filter_nil, if_pos hx]
      · rw [if_neg hx]
        simp only [insertKeyDesc, List.filter_cons, List.filter_nil, if_neg hx]
  | cons y ys ih =>
      rcases List.pairwise_cons.mp hl with ⟨hy, hys⟩
      by_cases hxy : key y ≤ key x
      · simp only [insertKeyDesc, if_pos hxy]
        by_cases hx : p x = true
        · rw [if_pos hx, List.filter_cons, if_pos hx]
          rw [insertKeyDesc_of_le]
          intro z hz
          rcases List.mem_cons.mp (List.mem_of_mem_filter hz) with rfl | hz'
          · exact hxy
          · exact le_trans (hy z hz') hxy
        · rw [if_neg hx, List.filter_cons, if_neg hx]
      · have hyx : key x < key y := lt_of_not_le hxy
        simp only [insertKeyDesc, if_neg hxy]
        by_cases hx : p x = true
        · have hpy : p y = true := hp x y (le_of_lt hyx) hx
          rw [if_pos hx, List.filter_cons, if_pos hpy, List.filter_cons,
            if_pos hpy, ih hys, if_pos hx]
          have : insertKeyDesc key x (y :: ys.filter p) =
              y :: insertKeyDesc key x (ys.filter p) := by
            simp only [insertKeyDesc, if_neg hxy]
          rw [this]
        · by_cases hpy : p y = true
          · rw [if_neg hx, List.filter_cons, if_pos hpy, List.filter_cons,
              if_pos hpy, ih hys, if_neg hx]
          · rw [if_neg hx, List.filter_cons, if_neg hpy, List.filter_cons,
              if_neg hpy, ih hys, if_neg hx]

/-- Filtering by a key-upward-closed predicate commutes with the stable sort. -/
theorem sortKeyDesc_filter_comm {α K : Type*} [LinearOrder K] {key : α → K}
    (p : α → Bool)
    (hp : ∀ a b, key a ≤ key b → p a = true → p b = true) (l : List α) :
    sortKeyDesc key (l.filter p) = (sortKeyDesc key l).filter p := by
  induction l with
  | nil => simp [sortKeyDesc]
  | cons x xs ih =>
      by_cases hx : p x = true
      · rw [List.filter_cons, if_pos hx, sortKeyDesc, sortKeyDesc, ih,
          filter_insertKeyDesc p hp (sortKeyDesc_pairwise key xs), if_pos hx]
      · rw [List.filter_cons, if_neg hx, sortKeyDesc, ih,
          filter_insertKeyDesc p hp (sortKeyDesc_pairwise key xs), if_neg hx]

/-- On a descending-sorted list, filtering by a key-upward-closed predicate
is the same as taking the leading run: the survivors form a prefix. -/
theorem sorted_filter_eq_takeWhile {α K : Type*} [LinearOrder K] {key : α → K}
    (p : α → Bool)
    (hp : ∀ a b, key a ≤ key b → p a = true → p b = true)
    {l : List α} (hl : l.Pairwise (fun a b => key b ≤ key a)) :
    l.filter p = l.takeWhile p := by
  induction l with
  | nil => simp
  | cons x xs ih =>
      rcases List.pairwise_cons.mp hl with ⟨hx', hxs⟩
      by_cases hx : p x = true
      · rw [List.filter_cons, if_pos hx, List.takeWhile_cons, if_pos hx, ih hxs]
      · have hnone : xs.filter p = [] := by
          rw [List.filter_eq_nil_iff]
          intro z hz hpz
          exact hx (hp z x (hx' z hz) hpz)
        rw [List.filter_cons, if_neg hx, List.takeWhile_cons, if_neg hx, hnone]

theorem takeWhile_eq_take {α : Type*} (p : α → Bool) (l : List α) :
    ∃ n, l.takeWhile p = l.take n := by
  induction l with
  | nil => exact ⟨0, rfl⟩
  | cons x xs ih =>
      by_cases hx : p x
      · rcases ih with ⟨n, hn⟩
        exact ⟨n + 1, by simp [List.takeWhile_cons, hx, hn]⟩
      · exact ⟨0, by simp [List.takeWhile_cons, hx]⟩

/-- Raising the threshold of the filter-sort-truncate pipeline can only
shrink the result: each survivor at the higher threshold also survives, in
the same truncated window, at the lower threshold. -/
theorem sorted_filter_take_mono {α K : Type*} [LinearOrder K] (key : α → K)
    (l : List α) (k : ℕ) {t1 t2 : K} (h : t1 ≤ t2) :
    ∀ r ∈ (sortKeyDesc key (l.filter (fun a => decide (t2 ≤ key a)))).take k,
      r ∈ (sortKeyDesc key (l.filter (fun a => decide (t1 ≤ key a)))).take k := by
  have hup : ∀ (t : K) (a b : α), key a ≤ key b →
      decide (t ≤ key a) = true → decide (t ≤ key b) = true :=
    fun t a b hab ha => decide_eq_true (le_trans (of_decide_eq_true ha) hab)
  have e1 : sortKeyDesc key (l.filter (fun a => decide (t2 ≤ key a))) =
      (sortKeyDesc key (l.filter (fun a => decide (t1 ≤ key a)))).filter
        (fun a => decide (t2 ≤ key a)) := by
    rw [sortKeyDesc_filter_comm (fun a => decide (t2 ≤ key a)) (hup t2) l,
      sortKeyDesc_filter_comm (fun a => decide (t1 ≤ key a)) (hup t1) l,
      List.filter_filter]
    refine List.filter_congr ?_
    intro a _
    by_cases h2 : decide (t2 ≤ key a) = true
    · have h1 : decide (t1 ≤ key a) = true :=
        decide_eq_true (le_trans h (of_decide_eq_true h2))
      rw [h2, h1]
      rfl
    · rw [Bool.eq_false_iff.mpr h2]
      rfl
  have e2 : (sortKeyDesc key (l.filter (fun a => decide (t1 ≤ key a)))).filter
        (fun a => decide (t2 ≤ key a)) =
      (sortKeyDesc key (l.filter (fun a => decide (t1 ≤ key a)))).takeWhile
        (fun a => decide (t2 ≤ key a)) :=
    sorted_filter_eq_takeWhile _ (hup t2) (sortKeyDesc_pairwise key _)
  obtain ⟨n, hn⟩ := takeWhile_eq_take (fun a => decide (t2 ≤ key a))
    (sortKeyDesc key (l.filter (fun a => decide (t1 ≤ key a))))
  intro r hr
  rw [e1, e2, hn, List.take_take] at hr
  exact List.take_subset_take_left _ (min_le_left k n) hr

/-! ## Claim theorems -/

theorem sumSquares_nonneg (v : List ℝ) : 0 ≤ sumSquares v := by
  refine List.sum_nonneg ?_
  intro x hx
  obtain ⟨y, _, rfl⟩ := List.mem_map.mp hx
  exact mul_self_nonneg y

/-- C10: `cosineSimilarity` is total: it returns 0 when either vector is
missing, when the lengths differ, or when either vector has zero magnitude
(`sumSquares = 0`); for all other same-length vectors it returns the dot
product divided by the product of the magnitudes.  (In this real-valued
model totality is by construction; the guards returning 0 are the exact
counterpart of the code never throwing or producing NaN.) -/
theorem cosineSimilarity_total :
    (∀ v : Option (List ℝ), cosineSimilarity none v = 0 ∧ cosineSimilarity v none = 0)
    ∧ (∀ a b : List ℝ, a.length ≠ b.length → cosineSimilarity (some a) (some b) = 0)
    ∧ (∀ a b : List ℝ, sumSquares a = 0 ∨ sumSquares b = 0 →
        cosineSimilarity (some a) (some b) = 0)
    ∧ (∀ a b : List ℝ, a.length = b.length →
        sumSquares a ≠ 0 → sumSquares b ≠ 0 →
        cosineSimilarity (some a) (some b) =
          dotProduct a b / (Real.sqrt (sumSquares a) * Real.sqrt (sumSquares b))) := by
  refine ⟨?_, ?_, ?_, ?_⟩
  · intro v
    constructor
    · rfl
    · cases v <;> rfl
  · intro a b h
    simp only [cosineSimilarity]
    rw [if_pos h]
  · intro a b h
    by_cases hlen : a.length ≠ b.length
    · simp only [cosineSimilarity]
      rw [if_pos hlen]
    · simp only [cosineSimilarity]
      rw [if_neg hlen]
      have hmag : Real.sqrt (sumSquares a) * Real.sqrt (sumSquares b) = 0 := by
        rcases h with h | h
        · rw [h, Real.sqrt_zero, zero_mul]
        · rw [h, Real.sqrt_zero, mul_zero]
      rw [if_pos hmag]
  · intro a b hlen ha hb
    have hane : (0 : ℝ) < Real.sqrt (sumSquares a) :=
      Real.sqrt_pos.mpr (lt_of_le_of_ne (sumSquares_nonneg a) (Ne.symm ha))
    have hbne : (0 : ℝ) < Real.sqrt (sumSquares b) :=
      Real.sqrt_pos.mpr (lt_of_le_of_ne (sumSquares_nonneg b) (Ne.symm hb))
    have hmag : Real.sqrt (sumSquares a) * Real.sqrt (sumSquares b) ≠ 0 :=
      ne_of_gt (mul_pos hane hbne)
    simp only [cosineSimilarity]
    rw [if_neg (by simp [hlen]), if_neg hmag]

/-- Witness for C10: concrete evaluations exercising the formula branch and
the length-mismatch branch. -/
theorem cosineSimilarity_total_witness :
    cosineSimilarity (some [(1 : ℝ)]) (some [(1 : ℝ)]) =
      dotProduct [(1 : ℝ)] [(1 : ℝ)] /
        (Real.sqrt (sumSquares [(1 : ℝ)]) * Real.sqrt (sumSquares [(1 : ℝ)]))
    ∧ cosineSimilarity (some [(1 : ℝ), 2]) (some [(3 : ℝ)]) = 0 :=
  ⟨cosineSimilarity_total.2.2.2 [(1 : ℝ)] [(1 : ℝ)] rfl
      (by simp [sumSquares]) (by simp [sumSquares]),
    cosineSimilarity_total.2.1 [(1 : ℝ), 2] [(3 : ℝ)] (by simp)⟩

/-- C5: similarity search filters by the threshold before truncating to the
top-k limit (the result length is `min k (number of candidates above the
threshold)`), returns results pairwise sorted in decreasing similarity, is
a stable sort (candidates sharing one similarity value keep their insertion
order), and every result at threshold 0.9 is also a result of the same
query at threshold 0.3 — both for `findSimilar` and for
`searchServerMemories` over a cached vector set. -/
theorem findSimilar_ranking (q : Option (List ℝ)) (items : List EmbItem)
    (cache : List CachedMsg) (chan : Option String) (k : ℕ) :
    (∀ r ∈ findSimilar q items k (9 / 10), r ∈ findSimilar q items k (3 / 10))
    ∧ (∀ t : ℝ, (findSimilar q items k t).Pairwise
        (fun a b => b.similarity ≤ a.similarity))
    ∧ (∀ t : ℝ, (findSimilar q items k t).length =
        min k (((scoredResults q items).filter
          (fun r => decide (t ≤ r.similarity))).length))
    ∧ (∀ t s : ℝ,
        (sortKeyDesc (fun r : SimResult => r.similarity)
            ((scoredResults q items).filter
              (fun r => decide (t ≤ r.similarity)))).filter
            (fun r => decide (r.similarity = s)) =
          ((scoredResults q items).filter
              (fun r => decide (t ≤ r.similarity))).filter
            (fun r => decide (r.similarity = s)))
    ∧ (∀ r ∈ searchServerMemories q cache chan k (9 / 10),
        r ∈ searchServerMemories q cache chan k (3 / 10))
    ∧ (∀ t : ℝ, (searchServerMemories q cache chan k t).Pairwise
        (fun a b => b.similarity ≤ a.similarity)) := by
  refine ⟨?_, ?_, ?_, ?_, ?_, ?_⟩
  · intro r hr
    exact sorted_filter_take_mono (fun r : SimResult => r.similarity)
      (scoredResults q items) k (by norm_num) r hr
  · intro t
    exact List.Pairwise.sublist (List.take_sublist k _) (sortKeyDesc_pairwise _ _)
  · intro t
    simp only [findSimilar, List.length_take, length_sortKeyDesc]
  · intro t s
    exact sortKeyDesc_stable (fun r : SimResult => r.similarity) _ s
  · intro r hr
    simp only [searchServerMemories, serverMatches] at hr ⊢
    exact sorted_filter_take_mono (fun r : MatchRow => r.similarity)
      _ k (by norm_num) r hr
  · intro t
    exact List.Pairwise.sublist (List.take_sublist k _) (sortKeyDesc_pairwise _ _)

/-! ### Interval helpers -/

theorem jsMax_eq (a b : ℚ) : jsMax a b = max a b := by
  rw [jsMax, max_def]

theorem jsMin_eq (a b : ℚ) : jsMin a b = min a b := by
  rw [jsMin, min_def]

theorem max_min_bounds (lo hi v : ℚ) (h : lo ≤ hi) :
    lo ≤ jsMax lo (jsMin hi v) ∧ jsMax lo (jsMin hi v) ≤ hi := by
  rw [jsMax_eq, jsMin_eq]
  exact ⟨le_max_left _ _, max_le h (min_le_left _ _)⟩

/-- C6: whenever the relationship evaluator returns a parsed result, the
deltas handed onward are clamped into the fixed safety bounds — affection
into [-0.05, 0.05], trust into [-0.03, 0.03], familiarity into
[0.005, 0.02], rivalry into [-0.02, 0.02] — regardless of the raw
numbers. -/
theorem evaluateRelationship_clamped (raw : RawRelEval) :
    (-0.05 ≤ (evaluateRelationshipParse raw).relationshipDeltas.affection
      ∧ (evaluateRelationshipParse raw).relationshipDeltas.affection ≤ 0.05)
    ∧ (-0.03 ≤ (evaluateRelationshipParse raw).relationshipDeltas.trust
      ∧ (evaluateRelationshipParse raw).relationshipDeltas.trust ≤ 0.03)
    ∧ (0.005 ≤ (evaluateRelationshipParse raw).relationshipDeltas.familiarity
      ∧ (evaluateRelationshipParse raw).relationshipDeltas.familiarity ≤ 0.02)
    ∧ (-0.02 ≤ (evaluateRelationshipParse raw).relationshipDeltas.rivalry
      ∧ (evaluateRelationshipParse raw).relationshipDeltas.rivalry ≤ 0.02) := by
  refine ⟨?_, ?_, ?_, ?_⟩ <;>
    exact max_min_bounds _ _ _ (by norm_num)

/-! ### C2: relationship bounds and saturation -/

theorem updateRelationship_unit (r : Relationship) (u : RelUpdates) (now : ℤ) :
    (0 ≤ (updateRelationship r u now).affection ∧ (updateRelationship r u now).affection ≤ 1)
    ∧ (0 ≤ (updateRelationship r u now).trust ∧ (updateRelationship r u now).trust ≤ 1)
    ∧ (0 ≤ (updateRelationship r u now).familiarity ∧ (updateRelationship r u now).familiarity ≤ 1)
    ∧ (0 ≤ (updateRelationship r u now).rivalry ∧ (updateRelationship r u now).rivalry ≤ 1) := by
  refine ⟨?_, ?_, ?_, ?_⟩ <;>
    exact max_min_bounds _ _ _ (by norm_num)

theorem relFold_unit (us : List (RelUpdates × ℤ)) :
    ∀ r : Relationship,
      (0 ≤ r.affection ∧ r.affection ≤ 1) → (0 ≤ r.trust ∧ r.trust ≤ 1) →
      (0 ≤ r.familiarity ∧ r.familiarity ≤ 1) → (0 ≤ r.rivalry ∧ r.rivalry ≤ 1) →
      (0 ≤ (us.foldl (fun r p => updateRelationship r p.1 p.2) r).affection
        ∧ (us.foldl (fun r p => updateRelationship r p.1 p.2) r).affection ≤ 1)
      ∧ (0 ≤ (us.foldl (fun r p => updateRelationship r p.1 p.2) r).trust
        ∧ (us.foldl (fun r p => updateRelationship r p.1 p.2) r).trust ≤ 1)
      ∧ (0 ≤ (us.foldl (fun r p => updateRelationship r p.1 p.2) r).familiarity
        ∧ (us.foldl (fun r p => updateRelationship r p.1 p.2) r).familiarity ≤ 1)
      ∧ (0 ≤ (us.foldl (fun r p => updateRelationship r p.1 p.2) r).rivalry
        ∧ (us.foldl (fun r p => updateRelationship r p.1 p.2) r).rivalry ≤ 1) := by
  induction us with
  | nil => intro r h1 h2 h3 h4; exact ⟨h1, h2, h3, h4⟩
  | cons p ps ih =>
      intro r _ _ _ _
      simp only [List.foldl_cons]
      rcases updateRelationship_unit r p.1 p.2 with ⟨h1, h2, h3, h4⟩
      exact ih _ h1 h2 h3 h4

theorem relSat_step (r : Relationship) (now : ℤ)
    (h1 : r.affection = 1) (h2 : r.trust = 1) (h3 : r.familiarity = 1)
    (h4 : r.rivalry = 1) :
    (updateRelationship r plusOneUpdates now).affection = 1
    ∧ (updateRelationship r plusOneUpdates now).trust = 1
    ∧ (updateRelationship r plusOneUpdates now).familiarity = 1
    ∧ (updateRelationship r plusOneUpdates now).rivalry = 1 := by
  simp only [updateRelationship, plusOneUpdates, h1, h2, h3, h4]
  refine ⟨?_, ?_, ?_, ?_⟩ <;> norm_num [clamp, jsMax, jsMin]

/-- C2: for every sequence of `updateRelationship` calls starting from the
lazily created default relationship, affection, trust, familiarity and
rivalry stay in [0, 1]; every single call increments the interaction count
by exactly one; and iterating the all-`+1.0` update saturates all four
fields at exactly 1 (never overshooting) with the interaction count equal
to the number of calls. -/
theorem updateRelationship_invariant :
    (∀ us : List (RelUpdates × ℤ),
      (0 ≤ (us.foldl (fun r p => updateRelationship r p.1 p.2) defaultRelationship).affection
        ∧ (us.foldl (fun r p => updateRelationship r p.1 p.2) defaultRelationship).affection ≤ 1)
      ∧ (0 ≤ (us.foldl (fun r p => updateRelationship r p.1 p.2) defaultRelationship).trust
        ∧ (us.foldl (fun r p => updateRelationship r p.1 p.2) defaultRelationship).trust ≤ 1)
      ∧ (0 ≤ (us.foldl (fun r p => updateRelationship r p.1 p.2) defaultRelationship).familiarity
        ∧ (us.foldl (fun r p => updateRelationship r p.1 p.2) defaultRelationship).familiarity ≤ 1)
      ∧ (0 ≤ (us.foldl (fun r p => updateRelationship r p.1 p.2) defaultRelationship).rivalry
        ∧ (us.foldl (fun r p => updateRelationship r p.1 p.2) defaultRelationship).rivalry ≤ 1))
    ∧ (∀ (r : Relationship) (u : RelUpdates) (now : ℤ),
        (updateRelationship r u now).interaction_count = r.interaction_count + 1)
    ∧ (∀ n : ℕ,
        ((fun r => updateRelationship r plusOneUpdates 0)^[n + 1] defaultRelationship).affection = 1
        ∧ ((fun r => updateRelationship r plusOneUpdates 0)^[n + 1] defaultRelationship).trust = 1
        ∧ ((fun r => updateRelationship r plusOneUpdates 0)^[n + 1] defaultRelationship).familiarity = 1
        ∧ ((fun r => updateRelationship r plusOneUpdates 0)^[n + 1] defaultRelationship).rivalry = 1
        ∧ ((fun r => updateRelationship r plusOneUpdates 0)^[n + 1] defaultRelationship).interaction_count = n + 1) := by
  refine ⟨?_, ?_, ?_⟩
  · intro us
    exact relFold_unit us defaultRelationship (by norm_num [defaultRelationship])
      (by norm_num [defaultRelationship]) (by norm_num [defaultRelationship])
      (by norm_num [defaultRelationship])
  · intro r u now
    rfl
  · intro n
    induction n with
    | zero =>
        refine ⟨?_, ?_, ?_, ?_, ?_⟩ <;>
          norm_num [Function.iterate_one, updateRelationship, plusOneUpdates,
            defaultRelationship, clamp, jsMax, jsMin]
    | succ n ih =>
        rcases ih with ⟨h1, h2, h3, h4, h5⟩
        rw [Function.iterate_succ_apply']
        rcases relSat_step _ 0 h1 h2 h3 h4 with ⟨g1, g2, g3, g4⟩
        refine ⟨g1, g2, g3, g4, ?_⟩
        have : (updateRelationship ((fun r => updateRelationship r plusOneUpdates 0)^[n + 1] defaultRelationship) plusOneUpdates 0).interaction_count
            = ((fun r => updateRelationship r plusOneUpdates 0)^[n + 1] defaultRelationship).interaction_count + 1 := rfl

        rw [this, h5]

/-! ### C1: trait bounds -/

theorem pd_min_le_max (t : TraitName) :
    (PersonalityDimensions t).min ≤ (PersonalityDimensions t).max := by
  cases t <;> norm_num [PersonalityDimensions]

theorem pd_base_mem (t : TraitName) :
    (PersonalityDimensions t).min ≤ (PersonalityDimensions t).base
    ∧ (PersonalityDimensions t).base ≤ (PersonalityDimensions t).max := by
  cases t <;> constructor <;> norm_num [PersonalityDimensions]

theorem pd_range_unit (t : TraitName) :
    0 ≤ (PersonalityDimensions t).min ∧ (PersonalityDimensions t).max ≤ 1 := by
  cases t <;> constructor <;> norm_num [PersonalityDimensions]

theorem evolveTrait_mem (tr : TraitName → ℚ)
    (h : ∀ u, (PersonalityDimensions u).min ≤ tr u
      ∧ tr u ≤ (PersonalityDimensions u).max)
    (name : TraitName) (delta : ℚ) (u : TraitName) :
    (PersonalityDimensions u).min ≤ (evolveTrait tr name delta true).1 u
    ∧ (evolveTrait tr name delta true).1 u ≤ (PersonalityDimensions u).max := by
  simp only [evolveTrait, reduceIte]
  split
  · exact h u
  · by_cases hu : u = name
    · subst hu
      simp only [if_pos rfl]
      exact max_min_bounds _ _ _ (pd_min_le_max u)
    · simp only [if_neg hu]
      exact h u

theorem evolvedTraits_mem (l : List (TraitName × ℚ)) (u : TraitName) :
    (PersonalityDimensions u).min ≤ evolvedTraits l u
    ∧ evolvedTraits l u ≤ (PersonalityDimensions u).max := by
  suffices h : ∀ (tr : TraitName → ℚ),
      (∀ v, (PersonalityDimensions v).min ≤ tr v
        ∧ tr v ≤ (PersonalityDimensions v).max) →
      ∀ v, (PersonalityDimensions v).min ≤
          (l.foldl (fun tr p => (evolveTrait tr p.1 p.2 true).1) tr) v
        ∧ (l.foldl (fun tr p => (evolveTrait tr p.1 p.2 true).1) tr) v ≤
          (PersonalityDimensions v).max by
    exact h initialTraits (fun v => pd_base_mem v) u
  induction l with
  | nil => intro tr htr v; exact htr v
  | cons p ps ih =>
      intro tr htr v
      simp only [List.foldl_cons]
      exact ih _ (fun w => evolveTrait_mem tr htr p.1 p.2 w) v

theorem effectiveTraits_unit (tr : TraitName → ℚ)
    (h : ∀ u, 0 ≤ tr u ∧ tr u ≤ 1) (mood : MoodName) (t : TraitName) :
    0 ≤ effectiveTraits tr mood t ∧ effectiveTraits tr mood t ≤ 1 := by
  unfold effectiveTraits
  cases hm : (Moods mood).effects t with
  | none => exact h t
  | some m => exact max_min_bounds _ _ _ (by norm_num)

/-- C1 counterexample: reading the freshly initialized personality state
while the `annoyed` mood is active yields an effective `snarkiness` of 1,
strictly above its declared maximum 0.95 — the read clamps effective traits
to `[0, 1]`, not to the per-trait `[min, max]`. -/
theorem effectiveTraits_exceed_declared_max :
    (PersonalityDimensions TraitName.snarkiness).max <
      (getPersonalityState annoyedRow none 0).1.effectiveTraits
        TraitName.snarkiness := by
  have hexp : ¬((((Moods annoyedRow.current_mood).duration : ℤ) * 60 * 1000 <
      (0 : ℤ) - annoyedRow.mood_started_at) ∧
        annoyedRow.current_mood ≠ MoodName.neutral) := by
    intro h
    exact absurd h.1 (by decide)
  simp only [getPersonalityState, getPersonalityStateFresh, if_neg hexp]
  norm_num [annoyedRow, effectiveTraits, Moods, initialTraits,
    PersonalityDimensions, jsMax, jsMin]

/-- C1 amended: across every sequence of `evolveTrait(name, delta, event)`
calls the stored base trait never leaves its declared `[min, max]`; and any
fresh read of the personality state produces effective traits = base traits
plus the active mood's deltas clamped into `[0, 1]` — so effective values
always lie in `[0, 1]`, though (as the counterexample shows) not
necessarily inside the declared per-trait `[min, max]`. -/
theorem evolveTrait_trait_bounds (l : List (TraitName × ℚ)) (mood : MoodName)
    (started now : ℤ) (triggers : List MoodTrigger) (t : TraitName) :
    ((PersonalityDimensions t).min ≤ evolvedTraits l t
      ∧ evolvedTraits l t ≤ (PersonalityDimensions t).max)
    ∧ (0 ≤ (getPersonalityState
        ⟨evolvedTraits l, mood, started, triggers⟩ none now).1.effectiveTraits t
      ∧ (getPersonalityState
        ⟨evolvedTraits l, mood, started, triggers⟩ none now).1.effectiveTraits t ≤ 1) := by
  have hunit : ∀ u, 0 ≤ evolvedTraits l u ∧ evolvedTraits l u ≤ 1 := by
    intro u
    rcases evolvedTraits_mem l u with ⟨h1, h2⟩
    rcases pd_range_unit u with ⟨g1, g2⟩
    exact ⟨le_trans g1 h1, le_trans h2 g2⟩
  refine ⟨evolvedTraits_mem l t, ?_⟩
  simp only [getPersonalityState, getPersonalityStateFresh]
  split
  · exact effectiveTraits_unit _ hunit .neutral t
  · exact effectiveTraits_unit _ hunit mood t

/-! ### C7: lazy mood decay and the 30-second cache -/

/-- C7 counterexample: a read 1 199 seconds into the 20-minute `flustered`
mood caches the view; a second read at 1 201 seconds — after the mood's
duration has elapsed — is served from the 30-second cache and still reports
`flustered`, not `neutral`. -/
theorem mood_decay_cached_read_stale :
    (((Moods flusteredRow.current_mood).duration : ℤ) * 60 * 1000 <
      1201000 - flusteredRow.mood_started_at)
    ∧ (getPersonalityState
        (getPersonalityState flusteredRow none 1199000).2.1
        (getPersonalityState flusteredRow none 1199000).2.2
        1201000).1.currentMood = MoodName.flustered := by
  constructor
  · decide
  · have h1 : ¬((((Moods flusteredRow.current_mood).duration : ℤ) * 60 * 1000 <
        (1199000 : ℤ) - flusteredRow.mood_started_at) ∧
          flusteredRow.current_mood ≠ MoodName.neutral) := by
      intro h
      exact absurd h.1 (by decide)
    simp only [getPersonalityState, getPersonalityStateFresh, if_neg h1]
    norm_num [CACHE_TTL, flusteredRow]

/-- C7 amended: any read that misses the 30-second personality cache (no
cached view, or a cached view at least `CACHE_TTL` old) after the active
mood's configured duration has elapsed returns mood `neutral`, with no
explicit decay call; a read within the cache TTL may still serve the
expired mood (see the counterexample). -/
theorem mood_decay_on_fresh_read (row : PersonalityRow)
    (cache : Option (ℤ × PersonalityView)) (now : ℤ)
    (hmiss : ∀ tU v, cache = some (tU, v) → CACHE_TTL ≤ now - tU)
    (hexp : ((Moods row.current_mood).duration : ℤ) * 60 * 1000 <
      now - row.mood_started_at) :
    (getPersonalityState row cache now).1.currentMood = MoodName.neutral := by
  have fresh : (getPersonalityStateFresh row now).1.currentMood = MoodName.neutral := by
    simp only [getPersonalityStateFresh]
    split
    · rfl
    · rename_i hcond
      have hn : row.current_mood = MoodName.neutral := by
        by_contra hn
        exact hcond ⟨hexp, hn⟩
      exact hn
  match cache with
  | none => exact fresh
  | some (tU, v) =>
      have hle := hmiss tU v rfl
      simp only [getPersonalityState, if_neg (not_lt.mpr hle)]
      exact fresh

/-- Witness for C7: the expired `flustered` mood decays to `neutral` on a
cache-missing read. -/
theorem mood_decay_on_fresh_read_witness :
    (getPersonalityState flusteredRow none 1201000).1.currentMood =
      MoodName.neutral :=
  mood_decay_on_fresh_read _ none 1201000 (fun _ _ h => nomatch h) (by decide)


/-! ### C8: importance score -/

theorem jsClamp_unit (S : ℚ) :
    0 ≤ jsMin 1 (jsMax 0 S) ∧ jsMin 1 (jsMax 0 S) ≤ 1 := by
  rw [jsMin_eq, jsMax_eq]
  exact ⟨le_min (by norm_num) (le_max_left 0 S), min_le_left _ _⟩

theorem jsClamp_id (x : ℚ) (h0 : 0 ≤ x) (h1 : x ≤ 1) :
    jsMin 1 (jsMax 0 x) = x := by
  rw [jsMin_eq, jsMax_eq, max_eq_right h0, min_eq_right h1]

theorem topicScore_bounds (n : ℕ) :
    0 ≤ jsMin 0.15 ((n : ℚ) * 0.03) ∧ jsMin 0.15 ((n : ℚ) * 0.03) ≤ 0.15 := by
  rw [jsMin_eq]
  refine ⟨le_min (by norm_num) (by positivity), min_le_left _ _⟩

theorem quietScore_bounds (ts : ℤ) :
    0 ≤ (if 30 * 60 * 1000 < ts then (0.10 : ℚ)
        else if 10 * 60 * 1000 < ts then 0.05 else 0)
    ∧ (if 30 * 60 * 1000 < ts then (0.10 : ℚ)
        else if 10 * 60 * 1000 < ts then 0.05 else 0) ≤ 0.10 := by
  constructor <;> (split
                   · norm_num
                   · split <;> norm_num)

theorem clamped_sum_lt (T E Q A R : ℚ)
    (hT0 : 0 ≤ T) (hT : T ≤ 0.15) (hE0 : 0 ≤ E) (hE : E ≤ 0.10)
    (hQ0 : 0 ≤ Q) (hQ : Q ≤ 0.10) (hA0 : 0 ≤ A) (hA : A ≤ 0.05)
    (hR0 : 0 ≤ R) (hR : R ≤ 0.05) :
    jsMin 1 (jsMax 0 (0.15 + 0 + 0 + T + E + Q + A + R)) <
      jsMin 1 (jsMax 0 (0.15 + 0.20 + 0.10 + T + E + Q + A + R)) := by
  rw [jsClamp_id _ (by linarith) (by linarith),
    jsClamp_id _ (by linarith) (by linarith)]
  linarith

/-- C8: the importance score is always in [0, 1]; a message with fewer than
3 words and no other firing signal (no question pattern, no mentions, no
topic-keyword hit, no emotional pattern, channel active within the last 10
minutes, no attachment, no reply) scores exactly 0; and a 20-word question
mentioning two users scores strictly higher than the same text with the
question pattern and the mentions removed, everything else equal. -/
theorem calculateImportanceScore_props :
    (∀ (m : DiscordMsg) (lt now : ℤ),
      0 ≤ calculateImportanceScore m lt now
      ∧ calculateImportanceScore m lt now ≤ 1)
    ∧ (∀ (m : DiscordMsg) (lt now : ℤ),
        (contentWords (toLowerStr m.content)).length < 3 →
        questionTest (toLowerStr m.content) = false →
        m.mentionUsers = 0 → m.mentionRoles = 0 → m.mentionChannels = 0 →
        (TOPIC_KEYWORDS.filter
          (fun kw => occursInStr kw (toLowerStr m.content))).length = 0 →
        emotionalTest m.content = false →
        now - lt ≤ 10 * 60 * 1000 →
        m.attachments = 0 → m.replyToId = none →
        calculateImportanceScore m lt now = 0)
    ∧ (∀ (m1 m2 : DiscordMsg) (lt now : ℤ),
        (contentWords (toLowerStr m1.content)).length = 20 →
        (contentWords (toLowerStr m2.content)).length = 20 →
        questionTest (toLowerStr m1.content) = true →
        questionTest (toLowerStr m2.content) = false →
        m1.mentionUsers = 2 → m2.mentionUsers = 0 →
        m1.mentionRoles = 0 → m2.mentionRoles = 0 →
        m1.mentionChannels = 0 → m2.mentionChannels = 0 →
        (TOPIC_KEYWORDS.filter
            (fun kw => occursInStr kw (toLowerStr m1.content))).length =
          (TOPIC_KEYWORDS.filter
            (fun kw => occursInStr kw (toLowerStr m2.content))).length →
        emotionalTest m1.content = emotionalTest m2.content →
        m1.attachments = m2.attachments →
        m1.replyToId.isSome = m2.replyToId.isSome →
        calculateImportanceScore m2 lt now < calculateImportanceScore m1 lt now) := by
  refine ⟨?_, ?_, ?_⟩
  · intro m lt now
    simp only [calculateImportanceScore]
    exact jsClamp_unit _
  · intro m lt now h1 h2 h3 h4 h5 h6 h7 h8 h9 h10
    simp only [calculateImportanceScore]
    have l1 : ¬(10 ≤ (contentWords (toLowerStr m.content)).length
        ∧ (contentWords (toLowerStr m.content)).length ≤ 50) := by omega
    have l2 : ¬(5 ≤ (contentWords (toLowerStr m.content)).length
        ∧ (contentWords (toLowerStr m.content)).length < 10) := by omega
    have l3 : ¬(3 ≤ (contentWords (toLowerStr m.content)).length
        ∧ (contentWords (toLowerStr m.content)).length < 5) := by omega
    have q1 : ¬(30 * 60 * 1000 < now - lt) := by omega
    have q2 : ¬(10 * 60 * 1000 < now - lt) := by omega
    rw [if_neg l1, if_neg l2, if_neg l3, if_neg (by simp [h2]), h3, h4, h5, h6,
      if_neg (by simp [h7]), if_neg q1, if_neg q2, if_neg (by simp [h9]),
      if_neg (by simp [h10])]
    norm_num [jsMin, jsMax]
  · intro m1 m2 lt now hw1 hw2 hq1 hq2 hu1 hu2 hr1 hr2 hc1 hc2 ht he ha hp
    simp only [calculateImportanceScore]
    rw [hw1, hw2, if_pos (by norm_num : 10 ≤ 20 ∧ 20 ≤ 50),
      if_pos hq1, if_neg (by simp [hq2]), hu1, hu2, hr1, hr2, hc1, hc2, ht, he,
      ha, hp]
    have hm1 : jsMin 0.15 (((2 + 0 + 0 : ℕ) : ℚ) * 0.05) = 0.10 := by
      norm_num [jsMin]
    have hm2 : jsMin 0.15 (((0 + 0 + 0 : ℕ) : ℚ) * 0.05) = 0 := by
      norm_num [jsMin]
    rw [hm1, hm2]
    rcases topicScore_bounds ((TOPIC_KEYWORDS.filter
      (fun kw => occursInStr kw (toLowerStr m2.content))).length) with ⟨hT0, hT⟩
    rcases quietScore_bounds (now - lt) with ⟨hQ0, hQ⟩
    have hE : 0 ≤ (if emotionalTest m2.content = true then (0.10:ℚ) else 0)
        ∧ (if emotionalTest m2.content = true then (0.10:ℚ) else 0) ≤ 0.10 := by
      constructor <;> (split <;> norm_num)
    have hA : 0 ≤ (if 0 < m2.attachments then (0.05:ℚ) else 0)
        ∧ (if 0 < m2.attachments then (0.05:ℚ) else 0) ≤ 0.05 := by
      constructor <;> (split <;> norm_num)
    have hR : 0 ≤ (if m2.replyToId.isSome = true then (0.05:ℚ) else 0)
        ∧ (if m2.replyToId.isSome = true then (0.05:ℚ) else 0) ≤ 0.05 := by
      constructor <;> (split <;> norm_num)
    exact clamped_sum_lt _ _ _ _ _ hT0 hT hE.1 hE.2 hQ0 hQ hA.1 hA.2 hR.1 hR.2


/-- Witness for C8: the zero-score and strict-comparison parts at concrete
messages. -/
theorem calculateImportanceScore_props_witness :
    calculateImportanceScore mShort 0 0 = 0
    ∧ calculateImportanceScore mPlain 0 0 < calculateImportanceScore mQuestion 0 0 :=
  ⟨calculateImportanceScore_props.2.1 mShort 0 0 (by decide) (by decide) rfl rfl
      rfl (by decide) (by decide) (by decide) rfl rfl,
    calculateImportanceScore_props.2.2 mQuestion mPlain 0 0 (by decide)
      (by decide) (by decide) (by decide) rfl rfl rfl rfl rfl rfl (by decide)
      (by decide) rfl rfl⟩

/-! ### C9: ingestion idempotence -/

theorem queueForEmbedding_messages (db : ServerDB) (i : ℕ) (p : ℤ) :
    (queueForEmbedding db i p).messages = db.messages := rfl

theorem ingestMessage_accepts (cfg : IngestConfig) (db : ServerDB)
    (chMap : String → Option ℤ) (m : DiscordMsg) (now : ℤ)
    (hen : cfg.SERVER_MEMORY_ENABLED = true)
    (hbot : m.authorBot = false)
    (hblank : blankContent m.content = false)
    (hguild : m.guildId.isNone = false)
    (hexc : cfg.SERVER_MEMORY_EXCLUDED_CHANNELS.contains m.channelId = false)
    (hallow : ¬(cfg.SERVER_MEMORY_CHANNELS ≠ [] ∧
      ¬cfg.SERVER_MEMORY_CHANNELS.contains m.channelId = true)) :
    ingestMessage cfg db chMap m now = ingestAccepted cfg db chMap m now := by
  simp only [ingestMessage, hen, hbot, hblank, hguild, hexc, if_neg hallow]
  norm_num

theorem ingestAccepted_new_stored (cfg : IngestConfig) (db : ServerDB)
    (chMap : String → Option ℤ) (m : DiscordMsg) (now : ℤ)
    (hnew : db.messages.find? (fun r => r.message_id == m.id) = none) :
    (ingestAccepted cfg db chMap m now).1.stored = some true := by
  simp only [ingestAccepted, hnew]

theorem ingestAccepted_new_messages (cfg : IngestConfig) (db : ServerDB)
    (chMap : String → Option ℤ) (m : DiscordMsg) (now : ℤ)
    (hnew : db.messages.find? (fun r => r.message_id == m.id) = none) :
    (ingestAccepted cfg db chMap m now).2.1.messages =
      db.messages ++ [ingestRow cfg db chMap m now] := by
  simp only [ingestAccepted, hnew]
  split
  · split
    · rw [queueForEmbedding_messages]
    · rfl
  · rfl

theorem ingestRow_message_id (cfg : IngestConfig) (db : ServerDB)
    (chMap : String → Option ℤ) (m : DiscordMsg) (now : ℤ) :
    (ingestRow cfg db chMap m now).message_id = m.id := rfl

theorem ingestAccepted_dup (cfg : IngestConfig) (db : ServerDB)
    (chMap : String → Option ℤ) (m : DiscordMsg) (now : ℤ) (r0 : MessageRow)
    (hfound : db.messages.find? (fun r => r.message_id == m.id) = some r0) :
    (ingestAccepted cfg db chMap m now).1.stored = some false
    ∧ (ingestAccepted cfg db chMap m now).2.1 = db := by
  refine ⟨?_, ?_⟩ <;> simp only [ingestAccepted, hfound]

/-- C9: re-ingesting a message with the same external message id results in
exactly one stored row: the insert is insert-or-ignore keyed by the
external message id, so the second ingestion leaves the whole database
unchanged and reports `stored: false`. -/
theorem ingestMessage_idempotent (cfg : IngestConfig) (db : ServerDB)
    (chMap : String → Option ℤ) (m : DiscordMsg) (now1 now2 : ℤ)
    (hen : cfg.SERVER_MEMORY_ENABLED = true)
    (hbot : m.authorBot = false)
    (hblank : blankContent m.content = false)
    (hguild : m.guildId.isNone = false)
    (hexc : cfg.SERVER_MEMORY_EXCLUDED_CHANNELS.contains m.channelId = false)
    (hallow : ¬(cfg.SERVER_MEMORY_CHANNELS ≠ [] ∧
      ¬cfg.SERVER_MEMORY_CHANNELS.contains m.channelId = true))
    (hnew : db.messages.find? (fun r => r.message_id == m.id) = none) :
    (ingestMessage cfg db chMap m now1).1.stored = some true
    ∧ (ingestMessage cfg (ingestMessage cfg db chMap m now1).2.1
        (ingestMessage cfg db chMap m now1).2.2 m now2).1.stored = some false
    ∧ (ingestMessage cfg (ingestMessage cfg db chMap m now1).2.1
        (ingestMessage cfg db chMap m now1).2.2 m now2).2.1 =
      (ingestMessage cfg db chMap m now1).2.1
    ∧ ((ingestMessage cfg db chMap m now1).2.1.messages.filter
        (fun r => r.message_id == m.id)).length = 1 := by
  have hpass1 : ingestMessage cfg db chMap m now1 = ingestAccepted cfg db chMap m now1 :=
    ingestMessage_accepts cfg db chMap m now1 hen hbot hblank hguild hexc hallow
  have hnil : db.messages.filter (fun r => r.message_id == m.id) = [] := by
    rw [List.filter_eq_nil_iff]
    exact List.find?_eq_none.mp hnew
  have hfound2 : (ingestMessage cfg db chMap m now1).2.1.messages.find?
      (fun r => r.message_id == m.id) = some (ingestRow cfg db chMap m now1) := by
    rw [hpass1, ingestAccepted_new_messages cfg db chMap m now1 hnew]
    rw [List.find?_append, hnew]
    simp [List.find?_cons, ingestRow_message_id]
  have hpass2 : ingestMessage cfg (ingestMessage cfg db chMap m now1).2.1
      (ingestMessage cfg db chMap m now1).2.2 m now2 =
      ingestAccepted cfg (ingestMessage cfg db chMap m now1).2.1
        (ingestMessage cfg db chMap m now1).2.2 m now2 :=
    ingestMessage_accepts cfg _ _ m now2 hen hbot hblank hguild hexc hallow
  rcases ingestAccepted_dup cfg (ingestMessage cfg db chMap m now1).2.1
    (ingestMessage cfg db chMap m now1).2.2 m now2 _ hfound2 with ⟨hstored2, hdb2⟩
  refine ⟨?_, ?_, ?_, ?_⟩
  · rw [hpass1]
    exact ingestAccepted_new_stored cfg db chMap m now1 hnew
  · rw [hpass2]
    exact hstored2
  · rw [hpass2]
    exact hdb2
  · rw [hpass1, ingestAccepted_new_messages cfg db chMap m now1 hnew,
      List.filter_append, hnil]
    simp [List.filter_cons, ingestRow_message_id]



/-- Witness for C9: ingesting the same message twice into an empty database
stores it once and reports nothing new on the second pass. -/
theorem ingestMessage_idempotent_witness :
    (ingestMessage c9cfg emptyDB (fun _ => none) mShort 0).1.stored = some true
    ∧ (ingestMessage c9cfg (ingestMessage c9cfg emptyDB (fun _ => none) mShort 0).2.1
        (ingestMessage c9cfg emptyDB (fun _ => none) mShort 0).2.2 mShort 5000).1.stored = some false
    ∧ (ingestMessage c9cfg (ingestMessage c9cfg emptyDB (fun _ => none) mShort 0).2.1
        (ingestMessage c9cfg emptyDB (fun _ => none) mShort 0).2.2 mShort 5000).2.1 =
      (ingestMessage c9cfg emptyDB (fun _ => none) mShort 0).2.1
    ∧ ((ingestMessage c9cfg emptyDB (fun _ => none) mShort 0).2.1.messages.filter
        (fun r => r.message_id == mShort.id)).length = 1 :=
  ingestMessage_idempotent c9cfg emptyDB (fun _ => none) mShort 0 5000 rfl rfl
    (by decide) rfl rfl (by decide) rfl

/-! ### C3: embedding-queue retry semantics -/

/-- C3 counterexample: an item that has failed batch embedding exactly 3
times is still `pending` (with `retry_count = 3`), not `failed` — the
transition to `failed` only happens on the next, fourth, failure. -/
theorem processBatch_three_failures_still_pending :
    queueStatusOf
      (processBatch (processBatch (processBatch c3db (.failure "e") 10)
        (.failure "e") 10) (.failure "e") 10) 1 = some QStatus.pending
    ∧ ((processBatch (processBatch (processBatch c3db (.failure "e") 10)
        (.failure "e") 10) (.failure "e") 10).queue.map
          (fun q => q.retry_count)) = [3] := by
  decide

theorem mem_getPendingQueue (db : ServerDB) (n : ℕ) {q : EmbedQueueItem}
    (h : q ∈ getPendingQueue db n) :
    q ∈ db.queue ∧ q.status = QStatus.pending := by
  unfold getPendingQueue at h
  have h1 := List.mem_of_mem_take h
  rw [mem_sortKeyDesc] at h1
  have h2 := List.mem_filter.mp h1
  have h3 := h2.2
  simp only [Bool.and_eq_true, beq_iff_eq] at h3
  exact ⟨h2.1, h3.1⟩

theorem find?_map_by_id (l : List EmbedQueueItem)
    (g : EmbedQueueItem → EmbedQueueItem) (qid : ℕ)
    (hg : ∀ x, (g x).id = x.id) :
    (l.map g).find? (fun q => q.id == qid) =
      (l.find? (fun q => q.id == qid)).map g := by
  induction l with
  | nil => rfl
  | cons x xs ih =>
      simp only [List.map_cons, List.find?_cons, hg x]
      cases hx : (x.id == qid) with
      | true => rfl
      | false => simpa using ih

/-- C3 amended: the fourth consecutive batch failure marks the item
`failed` and its message `failed`; a `failed` queue item (queue ids being
unique) stays `failed` across any further processor run; and the processor
only ever selects `pending` items, so a `failed` item is never picked up
again. -/
theorem processBatch_failed_terminal :
    (queueStatusOf
        (processBatch (processBatch (processBatch (processBatch c3db
          (.failure "e") 10) (.failure "e") 10) (.failure "e") 10)
          (.failure "e") 10) 1 = some QStatus.failed
      ∧ messageStatusOf
        (processBatch (processBatch (processBatch (processBatch c3db
          (.failure "e") 10) (.failure "e") 10) (.failure "e") 10)
          (.failure "e") 10) 1 = some EmbedStatus.failed)
    ∧ (∀ (db : ServerDB) (outcome : BatchOutcome) (n : ℕ) (qid : ℕ),
        (∀ a ∈ db.queue, ∀ b ∈ db.queue, a.id = b.id → a = b) →
        queueStatusOf db qid = some QStatus.failed →
        queueStatusOf (processBatch db outcome n) qid = some QStatus.failed)
    ∧ (∀ (db : ServerDB) (n : ℕ) (q : EmbedQueueItem),
        q ∈ getPendingQueue db n → q.status = QStatus.pending) := by
  refine ⟨by decide, ?_, ?_⟩
  · intro db outcome n qid huniq h
    cases hf : db.queue.find? (fun q => q.id == qid) with
    | none => simp [queueStatusOf, hf] at h
    | some q0 =>
        have hq0mem := List.mem_of_find?_eq_some hf
        have hstat : q0.status = QStatus.failed := by
          simpa [queueStatusOf, hf] using h
        have hnotsel : ∀ p ∈ getPendingQueue db n, (p.id == q0.id) = false := by
          intro p hp
          rcases mem_getPendingQueue db n hp with ⟨hpmem, hpstat⟩
          cases hpq : (p.id == q0.id) with
          | false => rfl
          | true =>
              have hpe : p = q0 := huniq p hpmem q0 hq0mem (by simpa using hpq)
              rw [hpe, hstat] at hpstat
              exact absurd hpstat (by decide)
        have hany : (getPendingQueue db n).any (fun p => p.id == q0.id) = false := by
          rw [List.any_eq_false]
          intro p hp
          simp [hnotsel p hp]
        cases outcome with
        | failure err =>
            simp only [processBatch]
            split
            · exact h
            · unfold queueStatusOf
              dsimp only
              rw [find?_map_by_id _ _ qid ?hgf, hf]
              case hgf =>
                intro x
                dsimp only
                split
                · split <;> rfl
                · rfl
              simp only [Option.map_some']
              rw [if_neg (by simp [hany]), hstat]
        | success storeFail =>
            simp only [processBatch]
            split
            · exact h
            · unfold queueStatusOf
              dsimp only
              rw [find?_map_by_id _ _ qid ?hgs, hf]
              case hgs =>
                intro x
                dsimp only
                split
                · split <;> rfl
                · rfl
              simp only [Option.map_some']
              rw [if_neg (by simp [hany]), hstat]
  · intro db n q h
    exact (mem_getPendingQueue db n h).2

/-- Witness for C3: applying the terminality clauses at a concrete database
whose single queue item is already `failed`. -/
theorem processBatch_failed_terminal_witness :
    queueStatusOf (processBatch c3failedDB (.failure "e") 10) 1 =
      some QStatus.failed :=
  processBatch_failed_terminal.2.1 c3failedDB (.failure "e") 10 1
    (by decide) (by decide)

/-! ### C4: processInteraction fallback path -/

theorem applySetMood_relationships (st : WorldState) (m : MoodName)
    (r : String) (now : ℤ) :
    (applySetMood st m r now).relationships = st.relationships := rfl

theorem applyEvolveTrait_relationships (st : WorldState) (n : TraitName)
    (d : ℚ) : (applyEvolveTrait st n d).relationships = st.relationships := by
  simp only [applyEvolveTrait]
  split <;> rfl

theorem applySetMoodStr_relationships (st : WorldState) (s r : String)
    (now : ℤ) : (applySetMoodStr st s r now).relationships = st.relationships := by
  simp only [applySetMoodStr]
  cases moodOfString s <;> rfl

theorem handleMoodStage_relationships (st : WorldState) (a : MoodAnalysis)
    (now : ℤ) : (handleMoodStage st a now).relationships = st.relationships := by
  simp only [handleMoodStage]
  repeat' split
  all_goals
    (try simp only [applySetMoodStr_relationships,
      applyEvolveTrait_relationships, applySetMood_relationships])

theorem evolveFromPatterns_relationships (st : WorldState) (userId : String) :
    (evolveFromPatterns st userId).relationships = st.relationships := by
  simp only [evolveFromPatterns]
  repeat' split
  all_goals (try simp only [applyEvolveTrait_relationships])

/-- C4: with both evaluator contracts returning null, `processInteraction`
still returns a completed, non-null result (`relationshipUpdated: true`,
keyword-fallback analysis, no LLM relationship evaluation) and applies the
fallback relationship update with the fixed small deltas: familiarity
+0.01 always; affection +0.005 for positive sentiment, −0.002 for sentiment
below −0.3, else 0; trust +0.02 when vulnerability was detected, else
+0.002. -/
theorem processInteraction_fallback (st : WorldState)
    (userId message response : String) (rand : ℚ) (now : ℤ) :
    (processInteraction st userId message response none none rand now).1.relationshipUpdated = true
    ∧ (processInteraction st userId message response none none rand now).1.llmRelEval = none
    ∧ (processInteraction st userId message response none none rand now).1.analysis =
        analyzeMessageKeywordFallback message
    ∧ (processInteraction st userId message response none none rand now).2.relationships userId =
      some (updateRelationship (getRelationshipFor st.relationships userId).1
        { affection := some (if 0 < (analyzeMessageKeywordFallback message).sentiment then 0.005
            else if (analyzeMessageKeywordFallback message).sentiment < -0.3 then -0.002 else 0),
          trust := some (if (analyzeMessageKeywordFallback message).isVulnerable then 0.02 else 0.002),
          familiarity := some 0.01,
          rivalry := none,
          addJoke := if (analyzeMessageKeywordFallback message).isPotentialJoke ∧ rand < 0.1 then
              some (extractJokeReference message)
            else none,
          nickname := none, addNote := none } now) := by
  refine ⟨rfl, rfl, rfl, ?_⟩
  simp only [processInteraction, relUpdatesStage, analyzeMessage, Option.map_none']
  split
  · rw [evolveFromPatterns_relationships]
    simp
  · simp

end Beboa
